import Mathlib

/-!
# Request lifecycle controller of the lz4e block filter

A shallow embedding of `module/lz4e_req.c`: the buffer mapper
(`lz4e_add_buf_to_bio`), read and write initialisation of a request
context (`lz4e_req_init`), and the completion handler (`lz4e_end_io`).

Conventions.
* Pointers are addresses (`Ptr`), the null pointer is address 0.
* C `unsigned int` values are naturals reduced modulo 2^32 at every
  place where the source converts or computes in that type.
* Kernel objects live in a `World`: one store per object type, plus the
  list of calls made to the collaborators (block layer, chunk service,
  stats sink), oldest first.
* The page size is `2 ^ PAGE_SHIFT`; `PAGE_SHIFT` is a parameter.
-/

namespace Lz4e

/-! ## Machine integers -/

/-- Addresses of kernel objects; 0 is the null pointer. -/
abbrev Ptr := Nat

/-- Number of values of a C `unsigned int`. -/
def UINT_RANGE : Nat := 4294967296

/-- Conversion of a non-negative value to `unsigned int`. -/
def to_uint (n : Nat) : Nat := n % UINT_RANGE

/-- Conversion of an `int` to `unsigned int` (the usual arithmetic
conversion applied by `ret != page_len`). -/
def int_to_uint (i : Int) : Nat := (i % (UINT_RANGE : Int)).toNat

/-- Conversion of an `unsigned int` to `int`, as in the cast
`(int)original_bio->bi_iter.bi_size`. -/
def uint_to_int (n : Nat) : Int :=
  if to_uint n < 2147483648 then (to_uint n : Int) else (to_uint n : Int) - (UINT_RANGE : Int)

/-- Errno value returned (negated) by the mapper on refusal. -/
def EAGAIN : Int := 11

/-! ## Pages -/

/-- The kernel's page size, `1UL << PAGE_SHIFT`. -/
def PAGE_SIZE (PAGE_SHIFT : Nat) : Nat := 2 ^ PAGE_SHIFT

/-- The kernel's `offset_in_page(p)`, `p & ~PAGE_MASK`: the offset of an
address inside its page. -/
def offset_in_page (PAGE_SHIFT : Nat) (p : Nat) : Nat := p % PAGE_SIZE PAGE_SHIFT

/-- The kernel's `virt_to_page(p)`: the page holding an address of the
linear map, identified by its page number. -/
def virt_to_page (PAGE_SHIFT : Nat) (p : Nat) : Nat := p / PAGE_SIZE PAGE_SHIFT

/-- The kernel's `DIV_ROUND_UP(n, d)`, `(n + d - 1) / d`. -/
def DIV_ROUND_UP (n d : Nat) : Nat := (n + d - 1) / d

/-! ## Block-layer objects -/

/-- One fragment of a descriptor: `struct bio_vec`. -/
structure bio_vec where
  bv_page : Nat
  bv_len : Nat
  bv_offset : Nat
deriving DecidableEq

/-- Position of a descriptor: `struct bvec_iter` (the fields used here). -/
structure bvec_iter where
  bi_sector : Nat
  bi_size : Nat
deriving DecidableEq

/-- An I/O descriptor: `struct bio` (the fields used here).  `bi_io_vec`
holds the fragments added so far, so `bi_vcnt` is its length. -/
structure bio where
  bi_bdev : Ptr
  bi_opf : Nat
  bi_status : Nat
  bi_iter : bvec_iter
  bi_end_io : Ptr
  bi_private : Ptr
  bi_max_vecs : Nat
  bi_io_vec : List bio_vec
deriving DecidableEq

/-- Number of fragments of a descriptor, the field `bi_vcnt`. -/
def bio.bi_vcnt (b : bio) : Nat := b.bi_io_vec.length

/-- A descriptor after one more fragment has been added to it: the
fragment is appended and the byte count `bi_iter.bi_size`, an
`unsigned int`, grows by its length. -/
def bio.add_frag (b : bio) (f : bio_vec) : bio :=
  { b with
    bi_io_vec := b.bi_io_vec ++ [f]
    bi_iter := { b.bi_iter with bi_size := to_uint (b.bi_iter.bi_size + f.bv_len) } }

/-- Modelled from the spec: `bio_add_page` belongs to the block layer and
is not under src/.  A descriptor has a fragment-adding capacity
(`bi_max_vecs`); while capacity remains the fragment `(page, len, offset)`
is appended and `len` is returned; once the capacity is exhausted the call
is refused: it returns 0 and leaves the descriptor as it was.  Merging of
adjacent fragments is not modelled: the list records the fragments as
they were added. -/
def bio_add_page (b : bio) (page len offset : Nat) : Int × bio :=
  if b.bi_vcnt ≥ b.bi_max_vecs then (0, b)
  else ((len : Int), b.add_frag ⟨page, len, offset⟩)

/-- A buffer descriptor of a chunk: `struct lz4e_buffer` (the fields used
here): start address, length in bytes, owning descriptor. -/
structure lz4e_buffer where
  data : Nat
  buf_size : Nat
  bio : Ptr
deriving DecidableEq

/-! ## The buffer mapper -/

/-- The `while (buf_len)` loop of `lz4e_add_buf_to_bio`.  The first
argument bounds the number of iterations; `none` means the bound was
reached with bytes still to map. -/
def add_buf_loop (PAGE_SHIFT : Nat) :
    Nat → bio → Nat → Nat → Nat → Nat → Option (Int × bio)
  | 0, b, _, buf_len, _, _ => if buf_len = 0 then some (0, b) else none
  | fuel + 1, b, data, buf_len, page_off, page_len =>
    if buf_len = 0 then some (0, b)
    else
      let r := bio_add_page b (virt_to_page PAGE_SHIFT data) page_len page_off
      if int_to_uint r.1 ≠ page_len then some (-EAGAIN, r.2)
      else
        let data := data + page_len
        let buf_len := to_uint (buf_len + UINT_RANGE - page_len)
        let page_off := 0
        let page_len := min (to_uint buf_len) (to_uint (PAGE_SIZE PAGE_SHIFT))
        add_buf_loop PAGE_SHIFT fuel r.2 data buf_len page_off page_len

/-- The function `lz4e_add_buf_to_bio(bio, buf)`: returns the `int` result
and the descriptor afterwards.  Every iteration maps at least one byte, so
`buf_len` iterations are allowed for. -/
def lz4e_add_buf_to_bio (PAGE_SHIFT : Nat) (b : bio) (buf : lz4e_buffer) :
    Option (Int × bio) :=
  let data := buf.data
  let buf_len := to_uint buf.buf_size
  let page_off := to_uint (offset_in_page PAGE_SHIFT data)
  let page_len := min (to_uint buf_len) (to_uint (PAGE_SIZE PAGE_SHIFT - page_off))
  add_buf_loop PAGE_SHIFT buf_len b data buf_len page_off page_len

/-- Fragments the mapper is specified to produce for a buffer at address
`a` of length `L` with pages of `PS` bytes: nothing for an empty buffer;
otherwise a first fragment at the offset of `a` in its page, then
fragments at offset 0 on the following pages, each a full page except
possibly the last, which takes the remainder. -/
def spec_frags (PS a L : Nat) : List bio_vec :=
  if L = 0 then []
  else
    let o := a % PS
    let first := min L (PS - o)
    ⟨a / PS, first, o⟩ ::
      (List.range (DIV_ROUND_UP (L - first) PS)).map
        (fun i => ⟨a / PS + 1 + i, min PS (L - first - i * PS), 0⟩)

/-- Total length of a list of fragments. -/
def frags_len (fs : List bio_vec) : Nat := (fs.map (fun f => f.bv_len)).sum

/-- A descriptor after the fragments `fs` have been added to it, one
after the other. -/
def bio.add_frags (b : bio) (fs : List bio_vec) : bio := fs.foldl bio.add_frag b

/-- Free fragment slots of a descriptor. -/
def bio.free_vecs (b : bio) : Nat := b.bi_max_vecs - b.bi_vcnt

/-- Number of fragments a buffer at address `a` of length `L` needs with
pages of `PS` bytes: none when empty, else the pages spanned from the
offset of `a` in its page. -/
def frags_needed (PS a L : Nat) : Nat :=
  if L = 0 then 0 else DIV_ROUND_UP (a % PS + L) PS

/-! ## Kernel constants -/

/-- The read operation kind. -/
def REQ_OP_READ : Nat := 0

/-- The write operation kind. -/
def REQ_OP_WRITE : Nat := 1

/-- The kernel's `REQ_OP_MASK`, `(1 << REQ_OP_BITS) - 1`. -/
def REQ_OP_MASK : Nat := 255

/-- Status of success (`blk_status_t`). -/
def BLK_STS_OK : Nat := 0

/-- Status of an operation kind that is not supported. -/
def BLK_STS_NOTSUPP : Nat := 1

/-- Status of a failed allocation. -/
def BLK_STS_RESOURCE : Nat := 9

/-- Status of an I/O error. -/
def BLK_STS_IOERR : Nat := 10

/-- Most fragments a descriptor can be allocated with. -/
def BIO_MAX_VECS : Nat := 256

/-- Allocation flags (`gfp_t`). -/
abbrev gfp_t := Nat

/-- Allocation that may reclaim but starts no I/O. -/
def GFP_NOIO : gfp_t := 0xC00

/-- Largest input the LZ4 compressor accepts. -/
def LZ4_MAX_INPUT_SIZE : Nat := 0x7E000000

/-- Modelled from the spec: `LZ4_COMPRESSBOUND` is a macro of
`linux/lz4.h`, not under src/.  Upstream definition on an `unsigned int`
argument: 0 if `(unsigned)isize > LZ4_MAX_INPUT_SIZE`, else
`isize + isize/255 + 16`. -/
def LZ4_COMPRESSBOUND (isize : Nat) : Nat :=
  if to_uint isize > to_uint LZ4_MAX_INPUT_SIZE then 0
  else to_uint (isize + isize / 255 + 16)

/-- The kernel's `bio_op(bio)`, `bio->bi_opf & REQ_OP_MASK`. -/
def bio_op (b : bio) : Nat := b.bi_opf % (REQ_OP_MASK + 1)

/-! ## Contexts, chunks, devices -/

/-- The compression workspace of one write: `struct lz4e_chunk` (the
fields used here). -/
structure lz4e_chunk where
  src_buf : lz4e_buffer
  dst_buf : lz4e_buffer
deriving DecidableEq

/-- The request context: `struct lz4e_req`. -/
structure lz4e_req where
  original_bio : Ptr
  new_bio : Ptr
  stats_to_update : Ptr
  chunk : Ptr
deriving DecidableEq

/-- The underlying device handle: `struct lz4e_under_dev`. -/
structure lz4e_under_dev where
  bdev : Ptr
  bset : Ptr
deriving DecidableEq

/-- The filter device: `struct lz4e_dev` (the fields used here). -/
structure lz4e_dev where
  under_dev : lz4e_under_dev
  read_stats : Ptr
  write_stats : Ptr
deriving DecidableEq

/-! ## The world: object stores and observable events -/

/-- What the outside of the controller can observe: each call to a
collaborator with its arguments (and the pointer or status it answered),
and the store into the original request, which the caller owns. -/
inductive Event where
  | kzalloc (flags : gfp_t) (ret : Ptr)
  | kfree (p : Ptr)
  | lz4e_chunk_alloc (src_size : Int) (ret : Ptr)
  | lz4e_chunk_free (chunk : Ptr)
  | lz4e_chunk_compress_ext (chunk : Ptr) (ret : Int)
  | lz4e_chunk_decompress (chunk : Ptr) (ret : Int)
  | bio_alloc_bioset (bdev : Ptr) (nr_vecs : Nat) (opf : Nat) (flags : gfp_t) (bset : Ptr)
      (ret : Ptr)
  | bio_reset (bio : Ptr) (bdev : Ptr) (opf : Nat)
  | bio_put (bio : Ptr)
  | lz4e_stats_update (stats : Ptr) (bio : Ptr)
  | set_bi_status (bio : Ptr) (status : Nat)
  | bio_endio (bio : Ptr)
  | submit_bio_noacct (bio : Ptr)
deriving DecidableEq

/-- The state the controller works on. -/
structure World where
  bios : Ptr → bio
  chunks : Ptr → lz4e_chunk
  reqs : Ptr → lz4e_req
  events : List Event

/-- The answers of the collaborators during one call of the controller,
and the constants of the build. -/
structure Env where
  PAGE_SHIFT : Nat
  fs_bio_set : Ptr
  end_io_fn : Ptr
  kzalloc_ret : Ptr
  chunk_alloc_ret : Ptr
  chunk_alloc_val : lz4e_chunk
  bio_alloc_ret : Ptr
  compress_ret : Int
  decompress_ret : Int

/-- A store with the object at `p` replaced. -/
def store {α : Type} (m : Ptr → α) (p : Ptr) (v : α) : Ptr → α :=
  fun q => if q = p then v else m q

/-- The world after one more event. -/
def World.emit (w : World) (ev : Event) : World :=
  { w with events := w.events ++ [ev] }

/-- The world with the descriptor at `p` replaced. -/
def World.set_bio (w : World) (p : Ptr) (b : bio) : World :=
  { w with bios := store w.bios p b }

/-- The world with the chunk at `p` replaced. -/
def World.set_chunk (w : World) (p : Ptr) (c : lz4e_chunk) : World :=
  { w with chunks := store w.chunks p c }

/-- The world with the context at `p` replaced. -/
def World.set_req (w : World) (p : Ptr) (r : lz4e_req) : World :=
  { w with reqs := store w.reqs p r }

/-! ## Collaborators -/

/-- Modelled from the spec: `kzalloc` of a context, not under src/:
answers null or the address of a zero-initialised context. -/
def kzalloc_req (e : Env) (w : World) (flags : gfp_t) : Ptr × World :=
  let w := w.emit (Event.kzalloc flags e.kzalloc_ret)
  if e.kzalloc_ret = 0 then (0, w)
  else (e.kzalloc_ret, w.set_req e.kzalloc_ret ⟨0, 0, 0, 0⟩)

/-- Modelled from the spec: `kfree`, not under src/: releases storage. -/
def kfree (w : World) (p : Ptr) : World := w.emit (Event.kfree p)

/-- Modelled from the spec: `lz4e_chunk_alloc` is defined in
lz4e_chunk.c, not under src/: `allocate_chunk(payload_length) → chunk |
fails(ResourceExhausted)`; it answers null or the address of a new
chunk. -/
def lz4e_chunk_alloc (e : Env) (w : World) (src_size : Int) : Ptr × World :=
  let w := w.emit (Event.lz4e_chunk_alloc src_size e.chunk_alloc_ret)
  if e.chunk_alloc_ret = 0 then (0, w)
  else (e.chunk_alloc_ret, w.set_chunk e.chunk_alloc_ret e.chunk_alloc_val)

/-- Modelled from the spec: `lz4e_chunk_free` is defined in lz4e_chunk.c,
not under src/: `free_chunk(chunk)`. -/
def lz4e_chunk_free (w : World) (chunk : Ptr) : World :=
  w.emit (Event.lz4e_chunk_free chunk)

/-- Modelled from the spec: `lz4e_chunk_compress_ext` is defined in
lz4e_chunk.c, not under src/: `compress(chunk) → Status`; the buffers'
addresses, sizes and owners stay as they are. -/
def lz4e_chunk_compress_ext (e : Env) (w : World) (chunk : Ptr) : Int × World :=
  (e.compress_ret, w.emit (Event.lz4e_chunk_compress_ext chunk e.compress_ret))

/-- Modelled from the spec: `lz4e_chunk_decompress` is defined in
lz4e_chunk.c, not under src/: `decompress(chunk) → Status`; the buffers'
addresses, sizes and owners stay as they are. -/
def lz4e_chunk_decompress (e : Env) (w : World) (chunk : Ptr) : Int × World :=
  (e.decompress_ret, w.emit (Event.lz4e_chunk_decompress chunk e.decompress_ret))

/-- Modelled from the spec: `bio_alloc_bioset` belongs to the block layer,
not under src/: `allocate_descriptor(device, fragment_capacity,
operation_flags) → descriptor | fails(ResourceExhausted)`; the new
descriptor is empty, bound to the device, and has the requested capacity
and flags. -/
def bio_alloc_bioset (e : Env) (w : World) (bdev : Ptr) (nr_vecs : Nat) (opf : Nat)
    (flags : gfp_t) (bset : Ptr) : Ptr × World :=
  let w := w.emit (Event.bio_alloc_bioset bdev nr_vecs opf flags bset e.bio_alloc_ret)
  if e.bio_alloc_ret = 0 then (0, w)
  else (e.bio_alloc_ret,
        w.set_bio e.bio_alloc_ret
          { bi_bdev := bdev, bi_opf := opf, bi_status := 0, bi_iter := ⟨0, 0⟩,
            bi_end_io := 0, bi_private := 0, bi_max_vecs := nr_vecs, bi_io_vec := [] })

/-- The kernel's inline `bio_alloc`: `bio_alloc_bioset` on the shared
pool `fs_bio_set`. -/
def bio_alloc (e : Env) (w : World) (bdev : Ptr) (nr_vecs : Nat) (opf : Nat)
    (flags : gfp_t) : Ptr × World :=
  bio_alloc_bioset e w bdev nr_vecs opf flags e.fs_bio_set

/-- Modelled from the spec: `bio_reset` belongs to the block layer, not
under src/: `reset_descriptor(descriptor, device, operation_flags)`; the
descriptor becomes empty again, keeps its capacity, and is bound to the
device with the given flags. -/
def bio_reset (w : World) (bio : Ptr) (bdev : Ptr) (opf : Nat) : World :=
  let w := w.emit (Event.bio_reset bio bdev opf)
  w.set_bio bio
    { bi_bdev := bdev, bi_opf := opf, bi_status := 0, bi_iter := ⟨0, 0⟩,
      bi_end_io := 0, bi_private := 0, bi_max_vecs := (w.bios bio).bi_max_vecs,
      bi_io_vec := [] }

/-- Modelled from the spec: `bio_put` belongs to the block layer, not
under src/: `release_descriptor(descriptor)`. -/
def bio_put (w : World) (bio : Ptr) : World := w.emit (Event.bio_put bio)

/-- Modelled from the spec: `bio_endio` belongs to the block layer, not
under src/: signals completion of a request. -/
def bio_endio (w : World) (bio : Ptr) : World := w.emit (Event.bio_endio bio)

/-- Modelled from the spec: `submit_bio_noacct` belongs to the block
layer, not under src/: `dispatch(descriptor)`, fire and forget. -/
def submit_bio_noacct (w : World) (bio : Ptr) : World :=
  w.emit (Event.submit_bio_noacct bio)

/-- Modelled from the spec: `lz4e_stats_update` is defined in
lz4e_stats.c, not under src/: `record(stats_target,
descriptor_outcome)`. -/
def lz4e_stats_update (w : World) (stats : Ptr) (bio : Ptr) : World :=
  w.emit (Event.lz4e_stats_update stats bio)

/-! ## The controller -/

/-- The function `lz4e_req_free(lzreq)`. -/
def lz4e_req_free (w : World) (lzreq : Ptr) : World :=
  if lzreq = 0 then w
  else
    let w := lz4e_chunk_free w (w.reqs lzreq).chunk
    kfree w lzreq

/-- The function `lz4e_req_alloc()`. -/
def lz4e_req_alloc (e : Env) (w : World) : Ptr × World :=
  let r := kzalloc_req e w GFP_NOIO
  let lzreq := r.1
  let w := r.2
  if lzreq = 0 then (0, w)
  else (lzreq, w)

/-- The function `lz4e_read_req_init(lzreq, original_bio, lzdev)`. -/
def lz4e_read_req_init (e : Env) (w : World) (lzreq original_bio : Ptr)
    (lzdev : lz4e_dev) : Nat × World :=
  let bdev := lzdev.under_dev.bdev
  let stats_to_update := lzdev.read_stats
  let r := bio_alloc e w bdev (w.bios original_bio).bi_vcnt REQ_OP_READ GFP_NOIO
  let new_bio := r.1
  let w := r.2
  if new_bio = 0 then (BLK_STS_RESOURCE, w)
  else
    let w := w.set_req lzreq { (w.reqs lzreq) with original_bio := original_bio }
    let w := w.set_req lzreq { (w.reqs lzreq) with new_bio := new_bio }
    let w := w.set_req lzreq { (w.reqs lzreq) with stats_to_update := stats_to_update }
    (BLK_STS_OK, w)

/-- The function `lz4e_bio_bytes_to_pages(bytes)`; the result is an
`unsigned short`. -/
def lz4e_bio_bytes_to_pages (PAGE_SHIFT : Nat) (bytes : Nat) : Nat :=
  let pages := DIV_ROUND_UP bytes (PAGE_SIZE PAGE_SHIFT)
  (min pages BIO_MAX_VECS) % 65536

/-- The function `lz4e_alloc_new_bio(original_bio, under_dev)`. -/
def lz4e_alloc_new_bio (e : Env) (w : World) (original_bio : Ptr)
    (under_dev : lz4e_under_dev) : Ptr × World :=
  let bsize := LZ4_COMPRESSBOUND (w.bios original_bio).bi_iter.bi_size
  let bdev := under_dev.bdev
  let bset := under_dev.bset
  let r := bio_alloc_bioset e w bdev (lz4e_bio_bytes_to_pages e.PAGE_SHIFT bsize)
    (w.bios original_bio).bi_opf GFP_NOIO bset
  let new_bio := r.1
  let w := r.2
  if new_bio = 0 then (0, w)
  else
    let w := w.set_bio new_bio
      { (w.bios new_bio) with
        bi_iter := { (w.bios new_bio).bi_iter with
                     bi_sector := (w.bios original_bio).bi_iter.bi_sector } }
    (new_bio, w)

/-- The function `lz4e_reset_bio(bio_to_reset, original_bio, under_dev)`. -/
def lz4e_reset_bio (w : World) (bio_to_reset original_bio : Ptr)
    (under_dev : lz4e_under_dev) : World :=
  let w := bio_reset w bio_to_reset under_dev.bdev (w.bios original_bio).bi_opf
  w.set_bio bio_to_reset
    { (w.bios bio_to_reset) with
      bi_iter := { (w.bios bio_to_reset).bi_iter with
                   bi_sector := (w.bios original_bio).bi_iter.bi_sector } }

/-- The label `free_chunk:` of `lz4e_write_req_init`. -/
def free_chunk (w : World) (chunk : Ptr) (status : Nat) : Nat × World :=
  let w := lz4e_chunk_free w chunk
  (status, w)

/-- The label `put_new_bio:` of `lz4e_write_req_init`, which falls through
to `free_chunk:`. -/
def put_new_bio (w : World) (new_bio chunk : Ptr) (status : Nat) : Nat × World :=
  let w := bio_put w new_bio
  free_chunk w chunk status

/-- The function `lz4e_write_req_init(lzreq, original_bio, lzdev)`; `none`
only if a mapper loop did not finish. -/
def lz4e_write_req_init (e : Env) (w : World) (lzreq original_bio : Ptr)
    (lzdev : lz4e_dev) : Option (Nat × World) :=
  let stats_to_update := lzdev.write_stats
  let r := lz4e_chunk_alloc e w (uint_to_int (w.bios original_bio).bi_iter.bi_size)
  let chunk := r.1
  let w := r.2
  if chunk = 0 then some (BLK_STS_RESOURCE, w)
  else
    let r := lz4e_alloc_new_bio e w original_bio lzdev.under_dev
    let new_bio := r.1
    let w := r.2
    if new_bio = 0 then some (free_chunk w chunk BLK_STS_RESOURCE)
    else
      match lz4e_add_buf_to_bio e.PAGE_SHIFT (w.bios new_bio) (w.chunks chunk).dst_buf with
      | none => none
      | some r =>
        let ret := r.1
        let w := w.set_bio new_bio r.2
        if ret ≠ 0 then some (put_new_bio w new_bio chunk BLK_STS_IOERR)
        else
          let w := w.set_chunk chunk
            { (w.chunks chunk) with
              src_buf := { (w.chunks chunk).src_buf with bio := original_bio } }
          let w := w.set_chunk chunk
            { (w.chunks chunk) with
              dst_buf := { (w.chunks chunk).dst_buf with bio := new_bio } }
          let r := lz4e_chunk_compress_ext e w chunk
          let ret := r.1
          let w := r.2
          if ret ≠ 0 then some (put_new_bio w new_bio chunk BLK_STS_IOERR)
          else
            let r := lz4e_chunk_decompress e w chunk
            let ret := r.1
            let w := r.2
            if ret ≠ 0 then some (put_new_bio w new_bio chunk BLK_STS_IOERR)
            else
              let w := lz4e_reset_bio w new_bio original_bio lzdev.under_dev
              match lz4e_add_buf_to_bio e.PAGE_SHIFT (w.bios new_bio)
                  (w.chunks chunk).src_buf with
              | none => none
              | some r =>
                let ret := r.1
                let w := w.set_bio new_bio r.2
                if ret ≠ 0 then some (put_new_bio w new_bio chunk BLK_STS_IOERR)
                else
                  let w := w.set_req lzreq
                    { (w.reqs lzreq) with original_bio := original_bio }
                  let w := w.set_req lzreq { (w.reqs lzreq) with new_bio := new_bio }
                  let w := w.set_req lzreq
                    { (w.reqs lzreq) with stats_to_update := stats_to_update }
                  let w := w.set_req lzreq { (w.reqs lzreq) with chunk := chunk }
                  some (BLK_STS_OK, w)

/-- The function `lz4e_req_init(lzreq, original_bio, lzdev)`. -/
def lz4e_req_init (e : Env) (w : World) (lzreq original_bio : Ptr)
    (lzdev : lz4e_dev) : Option (Nat × World) :=
  let op_type := bio_op (w.bios original_bio)
  if op_type = REQ_OP_READ then some (lz4e_read_req_init e w lzreq original_bio lzdev)
  else if op_type = REQ_OP_WRITE then lz4e_write_req_init e w lzreq original_bio lzdev
  else some (BLK_STS_NOTSUPP, w)

/-- The function `lz4e_end_io(new_bio)`, the completion handler.  -/
def lz4e_end_io (w : World) (new_bio : Ptr) : World :=
  let lzreq := (w.bios new_bio).bi_private
  let original_bio := (w.reqs lzreq).original_bio
  let stats_to_update := (w.reqs lzreq).stats_to_update
  let w := lz4e_stats_update w stats_to_update new_bio
  let w := (w.set_bio original_bio
    { (w.bios original_bio) with bi_status := (w.bios new_bio).bi_status }).emit
      (Event.set_bi_status original_bio (w.bios new_bio).bi_status)
  let w := bio_endio w original_bio
  let w := bio_put w new_bio
  lz4e_req_free w lzreq

/-- The function `lz4e_req_submit(lzreq)`. -/
def lz4e_req_submit (e : Env) (w : World) (lzreq : Ptr) : World :=
  let new_bio := (w.reqs lzreq).new_bio
  let w := w.set_bio new_bio { (w.bios new_bio) with bi_end_io := e.end_io_fn }
  let w := w.set_bio new_bio { (w.bios new_bio) with bi_private := lzreq }
  submit_bio_noacct w new_bio

/-! ## Steps of write initialisation -/

/-- The steps of `lz4e_write_req_init` that can fail, in program order. -/
inductive Step where
  | chunk_alloc
  | bio_alloc
  | map_dst
  | compress
  | decompress
  | map_src
deriving DecidableEq

/-- The first step of write initialisation that fails, if any, read off
the collaborators' answers for a request of the given payload length: an
allocation fails when it answers null, compress and decompress when they
answer nonzero, and a mapping when the buffer needs more fragments than
the capacity the shadow descriptor was allocated with. -/
def first_failing_step (e : Env) (payload : Nat) : Option Step :=
  let PS := PAGE_SIZE e.PAGE_SHIFT
  let cap := lz4e_bio_bytes_to_pages e.PAGE_SHIFT (LZ4_COMPRESSBOUND payload)
  if e.chunk_alloc_ret = 0 then some Step.chunk_alloc
  else if e.bio_alloc_ret = 0 then some Step.bio_alloc
  else if cap < frags_needed PS e.chunk_alloc_val.dst_buf.data
      (to_uint e.chunk_alloc_val.dst_buf.buf_size) then some Step.map_dst
  else if e.compress_ret ≠ 0 then some Step.compress
  else if e.decompress_ret ≠ 0 then some Step.decompress
  else if cap < frags_needed PS e.chunk_alloc_val.src_buf.data
      (to_uint e.chunk_alloc_val.src_buf.buf_size) then some Step.map_src
  else none

/-- Events that allocate a chunk or a descriptor. -/
def is_alloc : Event → Bool
  | Event.lz4e_chunk_alloc _ _ => true
  | Event.bio_alloc_bioset _ _ _ _ _ _ => true
  | _ => false

/-- Events that release a descriptor or free a chunk. -/
def is_release : Event → Bool
  | Event.bio_put _ => true
  | Event.lz4e_chunk_free _ => true
  | _ => false

/-- The status the spec prescribes for a write initialisation, by its
first failing step: `ResourceExhausted` for the two allocations,
`IOError` for a mapping, compress or decompress, `OK` when no step
fails. -/
def write_status : Option Step → Nat
  | some Step.chunk_alloc => BLK_STS_RESOURCE
  | some Step.bio_alloc => BLK_STS_RESOURCE
  | some Step.map_dst => BLK_STS_IOERR
  | some Step.compress => BLK_STS_IOERR
  | some Step.decompress => BLK_STS_IOERR
  | some Step.map_src => BLK_STS_IOERR
  | none => BLK_STS_OK

/-- The events the spec prescribes for a write initialisation of the
request `orig`, by its first failing step: the steps up to and including
the failing one, then the rollback (descriptor, then chunk) of what had
been allocated. -/
def write_trace (e : Env) (orig : bio) (lzdev : lz4e_dev) : Option Step → List Event :=
  let chunk := e.chunk_alloc_ret
  let new_bio := e.bio_alloc_ret
  let ev_chunk := Event.lz4e_chunk_alloc (uint_to_int orig.bi_iter.bi_size) chunk
  let ev_bio := Event.bio_alloc_bioset lzdev.under_dev.bdev
    (lz4e_bio_bytes_to_pages e.PAGE_SHIFT (LZ4_COMPRESSBOUND orig.bi_iter.bi_size))
    orig.bi_opf GFP_NOIO lzdev.under_dev.bset new_bio
  let ev_comp := Event.lz4e_chunk_compress_ext chunk e.compress_ret
  let ev_decomp := Event.lz4e_chunk_decompress chunk e.decompress_ret
  let ev_reset := Event.bio_reset new_bio lzdev.under_dev.bdev orig.bi_opf
  let ev_put := Event.bio_put new_bio
  let ev_free := Event.lz4e_chunk_free chunk
  fun s => match s with
  | some Step.chunk_alloc => [ev_chunk]
  | some Step.bio_alloc => [ev_chunk, ev_bio, ev_free]
  | some Step.map_dst => [ev_chunk, ev_bio, ev_put, ev_free]
  | some Step.compress => [ev_chunk, ev_bio, ev_comp, ev_put, ev_free]
  | some Step.decompress => [ev_chunk, ev_bio, ev_comp, ev_decomp, ev_put, ev_free]
  | some Step.map_src => [ev_chunk, ev_bio, ev_comp, ev_decomp, ev_reset, ev_put, ev_free]
  | none => [ev_chunk, ev_bio, ev_comp, ev_decomp, ev_reset]

/-! ## Example inputs -/

/-- A descriptor with four free fragment slots, used in examples. -/
def ex_bio : bio :=
  { bi_bdev := 0, bi_opf := 0, bi_status := 0, bi_iter := ⟨0, 0⟩, bi_end_io := 0,
    bi_private := 0, bi_max_vecs := 4, bi_io_vec := [] }

/-- A buffer of 10000 bytes starting 100 bytes into a page, used in
examples. -/
def ex_buf : lz4e_buffer := { data := 4196, buf_size := 10000, bio := 0 }

/-- An empty buffer at the address `kmalloc(0)` answers, 16 bytes into a
page. -/
def ex_empty_buf : lz4e_buffer := { data := 16, buf_size := 0, bio := 0 }

/-- A write request of `size` bytes at sector 2048, in one fragment. -/
def ex_write_bio (size : Nat) : bio :=
  { bi_bdev := 7, bi_opf := REQ_OP_WRITE, bi_status := 0, bi_iter := ⟨2048, size⟩,
    bi_end_io := 0, bi_private := 0, bi_max_vecs := 1, bi_io_vec := [⟨900, size, 0⟩] }

/-- A read request of three one-page fragments at sector 2048. -/
def ex_read_bio : bio :=
  { bi_bdev := 7, bi_opf := REQ_OP_READ, bi_status := 0, bi_iter := ⟨2048, 12288⟩,
    bi_end_io := 0, bi_private := 0, bi_max_vecs := 4,
    bi_io_vec := [⟨900, 4096, 0⟩, ⟨901, 4096, 0⟩, ⟨902, 4096, 0⟩] }

/-- A world holding the original request `orig` at address 1 and nothing
else of interest. -/
def ex_world (orig : bio) : World :=
  { bios := fun _ => orig
    chunks := fun _ => ⟨⟨0, 0, 0⟩, ⟨0, 0, 0⟩⟩
    reqs := fun _ => ⟨0, 0, 0, 0⟩
    events := [] }

/-- Collaborators that all succeed, on 4096-byte pages: the context is
allocated at address 3, the chunk at 4 with a 4096-byte source buffer and
a 4128-byte destination buffer, both page-aligned, the shadow descriptor
at 2. -/
def ex_env : Env :=
  { PAGE_SHIFT := 12, fs_bio_set := 50, end_io_fn := 60, kzalloc_ret := 3,
    chunk_alloc_ret := 4,
    chunk_alloc_val := ⟨⟨0x20000, 4096, 0⟩, ⟨0x10000, 4128, 0⟩⟩,
    bio_alloc_ret := 2, compress_ret := 0, decompress_ret := 0 }

/-- Collaborators as in `ex_env`, except that compression fails. -/
def ex_env_compress_fails : Env := { ex_env with compress_ret := -1 }

/-- A filter device over the underlying device 10 with pool 11. -/
def ex_dev : lz4e_dev := ⟨⟨10, 11⟩, 20, 21⟩

/-- A world with a write in flight: the shadow descriptor at address 2
has completed with status 10 and carries the context at address 3, which
refers to the original request at 1, the write statistics at 21 and the
chunk at 4. -/
def ex_inflight_world : World :=
  { bios := fun p =>
      if p = 2 then
        { bi_bdev := 10, bi_opf := REQ_OP_WRITE, bi_status := 10, bi_iter := ⟨2048, 4096⟩,
          bi_end_io := 60, bi_private := 3, bi_max_vecs := 2, bi_io_vec := [⟨32, 4096, 0⟩] }
      else ex_write_bio 4096
    chunks := fun _ => ⟨⟨0x20000, 4096, 1⟩, ⟨0x10000, 4128, 2⟩⟩
    reqs := fun _ => ⟨1, 2, 21, 4⟩
    events := [] }

/-! ## Lemmas on the buffer mapper -/


theorem PAGE_SIZE_pos (PAGE_SHIFT : Nat) : 0 < PAGE_SIZE PAGE_SHIFT := by
  unfold PAGE_SIZE; positivity

theorem spec_frags_zero (PS a : Nat) : spec_frags PS a 0 = [] := by
  simp [spec_frags]

theorem div_round_up_step (PS R : Nat) (hPS : 0 < PS) (hR : 0 < R) :
    DIV_ROUND_UP R PS = DIV_ROUND_UP (R - min R PS) PS + 1 := by
  unfold DIV_ROUND_UP
  rcases Nat.lt_or_ge PS R with h | h
  · have e1 : min R PS = PS := by omega
    have e2 : R + PS - 1 = (R - PS + PS - 1) + PS := by omega
    rw [e1, e2, Nat.add_div_right _ hPS]
  · have e1 : min R PS = R := by omega
    have e2 : (R + PS - 1) / PS = 1 := by
      apply Nat.div_eq_of_lt_le <;> omega
    have e3 : (R - R + PS - 1) / PS = 0 := by
      apply Nat.div_eq_of_lt; omega
    rw [e1, e2, e3]

theorem spec_frags_cons (PS a L : Nat) (hPS : 0 < PS) (hL : 0 < L) :
    spec_frags PS a L =
      ⟨a / PS, min L (PS - a % PS), a % PS⟩ ::
        spec_frags PS (a + min L (PS - a % PS)) (L - min L (PS - a % PS)) := by
  have ho : a % PS < PS := Nat.mod_lt _ hPS
  rcases Nat.eq_zero_or_pos (L - min L (PS - a % PS)) with hR | hR
  · have hz : DIV_ROUND_UP 0 PS = 0 := by
      unfold DIV_ROUND_UP
      apply Nat.div_eq_of_lt; omega
    rw [spec_frags, if_neg (by omega)]
    simp only [hR, spec_frags_zero, hz, List.range_zero, List.map_nil]
  · -- the first fragment ends its page
    have hfirst : min L (PS - a % PS) = PS - a % PS := by omega
    have hmul : a + (PS - a % PS) = PS * (a / PS + 1) := by
      have := Nat.div_add_mod a PS
      rw [Nat.mul_add, Nat.mul_one]; omega
    have hdiv : (a + (PS - a % PS)) / PS = a / PS + 1 := by
      rw [hmul, Nat.mul_div_cancel_left _ hPS]
    have hmod : (a + (PS - a % PS)) % PS = 0 := by
      rw [hmul, Nat.mul_mod_right]
    rw [hfirst] at hR ⊢
    generalize hRd : L - (PS - a % PS) = R at hR ⊢
    rw [spec_frags, if_neg (by omega), spec_frags, if_neg (by omega)]
    simp only [hfirst, hRd, hdiv, hmod, Nat.sub_zero]
    rw [div_round_up_step PS R hPS hR, List.range_succ_eq_map]
    simp only [List.map_cons, List.map_map, Nat.zero_mul, Nat.sub_zero, Nat.add_zero]
    congr 2
    · rw [Nat.min_comm]
    · apply List.map_congr_left
      intro i _
      simp only [Function.comp, Nat.succ_eq_add_one, Nat.add_mul, Nat.one_mul]
      congr 1
      · omega
      · rcases Nat.lt_or_ge PS R with h | h
        · have : min R PS = PS := by omega
          rw [this]; omega
        · have : min R PS = R := by omega
          rw [this]; omega


theorem int_to_uint_natCast (n : Nat) (h : n < UINT_RANGE) : int_to_uint (n : Int) = n := by
  unfold int_to_uint UINT_RANGE at *
  omega

theorem int_to_uint_zero : int_to_uint 0 = 0 := by
  unfold int_to_uint UINT_RANGE; simp

theorem add_frags_cons (b : bio) (f : bio_vec) (fs : List bio_vec) :
    b.add_frags (f :: fs) = (b.add_frag f).add_frags fs := rfl

theorem free_vecs_add_frag (b : bio) (f : bio_vec) :
    (b.add_frag f).free_vecs = b.free_vecs - 1 := by
  simp [bio.free_vecs, bio.bi_vcnt, bio.add_frag]; omega

theorem add_buf_loop_eq (PAGE_SHIFT : Nat) (hps : PAGE_SIZE PAGE_SHIFT < UINT_RANGE) :
    ∀ (fuel : Nat) (b : bio) (data buf_len page_off page_len : Nat),
      buf_len ≤ fuel → buf_len < UINT_RANGE →
      (buf_len = 0 ∨ (page_off = data % PAGE_SIZE PAGE_SHIFT ∧
          page_len = min buf_len (PAGE_SIZE PAGE_SHIFT - page_off))) →
      add_buf_loop PAGE_SHIFT fuel b data buf_len page_off page_len =
        if (spec_frags (PAGE_SIZE PAGE_SHIFT) data buf_len).length ≤ b.free_vecs
        then some (0, b.add_frags (spec_frags (PAGE_SIZE PAGE_SHIFT) data buf_len))
        else some (-EAGAIN,
          b.add_frags ((spec_frags (PAGE_SIZE PAGE_SHIFT) data buf_len).take b.free_vecs)) := by
  have hPS := PAGE_SIZE_pos PAGE_SHIFT
  intro fuel
  induction fuel with
  | zero =>
    intro b data buf_len page_off page_len hf _ _
    have h0 : buf_len = 0 := by omega
    subst h0
    simp [add_buf_loop, spec_frags_zero, bio.add_frags]
  | succ fuel ih =>
    intro b data buf_len page_off page_len hf hlt hinv
    rcases Nat.eq_zero_or_pos buf_len with h0 | hpos
    · subst h0
      simp [add_buf_loop, spec_frags_zero, bio.add_frags]
    · rcases hinv with h0 | ⟨hoff, hlen⟩
      · omega
      · have ho : data % PAGE_SIZE PAGE_SHIFT < PAGE_SIZE PAGE_SHIFT := Nat.mod_lt _ hPS
        have hlen_pos : 0 < page_len := by omega
        have hlen_le : page_len ≤ buf_len := by omega
        rw [spec_frags_cons _ _ _ hPS hpos, ← hoff, ← hlen]
        rw [add_buf_loop, if_neg (by omega)]
        unfold bio_add_page
        by_cases hcap : b.bi_vcnt ≥ b.bi_max_vecs
        · have hfree : b.free_vecs = 0 := by unfold bio.free_vecs; omega
          simp only [hcap, if_true, int_to_uint_zero, hfree]
          rw [if_pos (by omega)]
          simp [bio.add_frags]
        · have hfree : 0 < b.free_vecs := by unfold bio.free_vecs; omega
          simp only [hcap, if_false]
          rw [int_to_uint_natCast _ (by omega), if_neg (by simp)]
          have hsub : to_uint (buf_len + UINT_RANGE - page_len) = buf_len - page_len := by
            unfold to_uint; unfold UINT_RANGE at *; omega
          simp only [hsub]
          have hmin : min (to_uint (buf_len - page_len)) (to_uint (PAGE_SIZE PAGE_SHIFT)) =
              min (buf_len - page_len) (PAGE_SIZE PAGE_SHIFT) := by
            unfold to_uint
            rw [Nat.mod_eq_of_lt (by omega), Nat.mod_eq_of_lt hps]
          rw [hmin, ih _ _ _ _ _ (by omega) (by omega), free_vecs_add_frag, virt_to_page]
          · simp only [List.length_cons, add_frags_cons]
            have htake : List.take b.free_vecs
                (({ bv_page := data / PAGE_SIZE PAGE_SHIFT, bv_len := page_len,
                    bv_offset := page_off } : bio_vec) ::
                  spec_frags (PAGE_SIZE PAGE_SHIFT) (data + page_len) (buf_len - page_len)) =
                ⟨data / PAGE_SIZE PAGE_SHIFT, page_len, page_off⟩ ::
                  List.take (b.free_vecs - 1)
                    (spec_frags (PAGE_SIZE PAGE_SHIFT) (data + page_len) (buf_len - page_len)) := by
              obtain ⟨k, hk⟩ : ∃ k, b.free_vecs = k + 1 := ⟨b.free_vecs - 1, by omega⟩
              rw [hk]; simp
            rw [htake, add_frags_cons]
            by_cases hc : (spec_frags (PAGE_SIZE PAGE_SHIFT) (data + page_len)
                (buf_len - page_len)).length ≤ b.free_vecs - 1
            · rw [if_pos hc, if_pos (by omega)]
            · rw [if_neg hc, if_neg (by omega)]
          · rcases Nat.eq_zero_or_pos (buf_len - page_len) with hz | hz
            · exact Or.inl hz
            · right
              have hfull : page_len = PAGE_SIZE PAGE_SHIFT - data % PAGE_SIZE PAGE_SHIFT := by
                omega
              refine ⟨?_, by omega⟩
              have hmul : data + page_len =
                  PAGE_SIZE PAGE_SHIFT * (data / PAGE_SIZE PAGE_SHIFT + 1) := by
                have := Nat.div_add_mod data (PAGE_SIZE PAGE_SHIFT)
                rw [Nat.mul_add, Nat.mul_one]; omega
              rw [hmul, Nat.mul_mod_right]


theorem PAGE_SIZE_lt (PAGE_SHIFT : Nat) (h : PAGE_SHIFT < 32) :
    PAGE_SIZE PAGE_SHIFT < UINT_RANGE := by
  unfold PAGE_SIZE UINT_RANGE
  calc 2 ^ PAGE_SHIFT < 2 ^ 32 := Nat.pow_lt_pow_right (by decide) h
    _ = 4294967296 := by norm_num

theorem to_uint_of_lt (n : Nat) (h : n < UINT_RANGE) : to_uint n = n :=
  Nat.mod_eq_of_lt h

theorem div_round_up_zero (PS : Nat) (hPS : 0 < PS) : DIV_ROUND_UP 0 PS = 0 := by
  unfold DIV_ROUND_UP
  apply Nat.div_eq_of_lt; omega

theorem lt_div_round_up (PS R j : Nat) (hPS : 0 < PS) :
    j < DIV_ROUND_UP R PS ↔ j * PS < R := by
  unfold DIV_ROUND_UP
  rw [Nat.lt_iff_add_one_le, Nat.le_div_iff_mul_le hPS, Nat.add_mul, Nat.one_mul]
  omega

theorem spec_frags_length (PS a L : Nat) (hPS : 0 < PS) :
    (spec_frags PS a L).length = frags_needed PS a L := by
  unfold spec_frags frags_needed
  by_cases hL : L = 0
  · simp [hL]
  · rw [if_neg hL, if_neg hL]
    simp only [List.length_cons, List.length_map, List.length_range]
    have ho : a % PS < PS := Nat.mod_lt _ hPS
    rcases Nat.lt_or_ge (PS - a % PS) L with h | h
    · have e1 : min L (PS - a % PS) = PS - a % PS := by omega
      have e2 : a % PS + L = (L - (PS - a % PS)) + PS := by omega
      rw [e1, e2]
      unfold DIV_ROUND_UP
      have e3 : L - (PS - a % PS) + PS + PS - 1 = (L - (PS - a % PS) + PS - 1) + PS := by omega
      rw [e3, Nat.add_div_right _ hPS]
    · have e1 : min L (PS - a % PS) = L := by omega
      rw [e1, Nat.sub_self, div_round_up_zero PS hPS]
      unfold DIV_ROUND_UP
      symm
      apply Nat.div_eq_of_lt_le <;> omega

theorem frags_len_cons (f : bio_vec) (fs : List bio_vec) :
    frags_len (f :: fs) = f.bv_len + frags_len fs := by
  simp [frags_len]

theorem frags_len_spec (PS : Nat) (hPS : 0 < PS) :
    ∀ (n a L : Nat), L ≤ n → frags_len (spec_frags PS a L) = L := by
  intro n
  induction n with
  | zero =>
    intro a L h
    have : L = 0 := by omega
    subst this
    simp [spec_frags_zero, frags_len]
  | succ n ih =>
    intro a L h
    rcases Nat.eq_zero_or_pos L with h0 | hpos
    · subst h0
      simp [spec_frags_zero, frags_len]
    · have ho : a % PS < PS := Nat.mod_lt _ hPS
      rw [spec_frags_cons PS a L hPS hpos, frags_len_cons, ih _ _ (by omega)]
      simp only
      omega

/-- Shape of the fragment at position `i` of the specified sequence. -/
theorem spec_frags_get (PS a L : Nat) (hPS : 0 < PS) (i : Nat) (f : bio_vec)
    (h : (spec_frags PS a L)[i]? = some f) :
    f.bv_page = a / PS + i ∧ 0 < f.bv_len ∧ f.bv_offset + f.bv_len ≤ PS ∧
    (i = 0 → f.bv_offset = a % PS ∧ f.bv_len = min L (PS - a % PS)) ∧
    (0 < i → f.bv_offset = 0) ∧
    (0 < i → i + 1 < (spec_frags PS a L).length → f.bv_len = PS) := by
  have ho : a % PS < PS := Nat.mod_lt _ hPS
  have hlen := spec_frags_length PS a L hPS
  unfold spec_frags at h hlen
  by_cases hL : L = 0
  · simp [hL] at h
  · rw [if_neg hL] at h hlen
    cases i with
    | zero =>
      simp only [List.getElem?_cons_zero, Option.some.injEq] at h
      subst h
      simp only
      refine ⟨by omega, by omega, by omega, fun _ => by simp, fun h => by omega,
        fun h => by omega⟩
    | succ j =>
      simp only [List.getElem?_cons_succ, List.getElem?_map, Option.map_eq_some'] at h
      obtain ⟨k, hk, hf⟩ := h
      have hk' := List.getElem?_eq_some_iff.mp hk
      obtain ⟨hjlt, hkj⟩ := hk'
      simp only [List.length_range] at hjlt
      simp only [List.getElem_range] at hkj
      subst hkj
      subst hf
      have hlt := (lt_div_round_up PS _ j hPS).mp hjlt
      simp only
      refine ⟨by omega, by omega, by omega, fun h => by omega, fun _ => by simp, ?_⟩
      intro _ hfull
      rw [spec_frags, if_neg hL] at hfull
      simp only [List.length_cons, List.length_map, List.length_range] at hfull
      have h2 : j + 1 < DIV_ROUND_UP (L - min L (PS - a % PS)) PS := by omega
      have h3 := (lt_div_round_up PS _ (j + 1) hPS).mp h2
      rw [Nat.add_mul, Nat.one_mul] at h3
      omega

theorem frags_len_take_lt (fs : List bio_vec) (hpos : ∀ f ∈ fs, 0 < f.bv_len) :
    ∀ k, k < fs.length → frags_len (fs.take k) < frags_len fs := by
  induction fs with
  | nil => intro k h; simp at h
  | cons f fs ih =>
    intro k hk
    have hf : 0 < f.bv_len := hpos f (List.mem_cons_self _ _)
    cases k with
    | zero =>
      simp only [List.take_zero, frags_len_cons]
      simp only [frags_len, List.map_nil, List.sum_nil]
      omega
    | succ k =>
      simp only [List.take_succ_cons, frags_len_cons]
      have := ih (fun g hg => hpos g (List.mem_cons_of_mem _ hg)) k
        (by simp only [List.length_cons] at hk; omega)
      omega

theorem spec_frags_pos (PS a L : Nat) (hPS : 0 < PS) :
    ∀ f ∈ spec_frags PS a L, 0 < f.bv_len := by
  intro f hf
  obtain ⟨i, hi⟩ := List.mem_iff_getElem?.mp hf
  exact (spec_frags_get PS a L hPS i f hi).2.1

theorem add_frags_vec (fs : List bio_vec) :
    ∀ b : bio, (b.add_frags fs).bi_io_vec = b.bi_io_vec ++ fs := by
  induction fs with
  | nil => intro b; simp [bio.add_frags]
  | cons f fs ih =>
    intro b
    rw [add_frags_cons, ih]
    simp [bio.add_frag]

theorem add_frags_frame (fs : List bio_vec) :
    ∀ b : bio, (b.add_frags fs).bi_max_vecs = b.bi_max_vecs ∧
      (b.add_frags fs).bi_opf = b.bi_opf ∧
      (b.add_frags fs).bi_iter.bi_sector = b.bi_iter.bi_sector ∧
      (b.add_frags fs).bi_bdev = b.bi_bdev ∧
      (b.add_frags fs).bi_status = b.bi_status ∧
      (b.add_frags fs).bi_private = b.bi_private ∧
      (b.add_frags fs).bi_end_io = b.bi_end_io := by
  induction fs with
  | nil => intro b; simp [bio.add_frags]
  | cons f fs ih =>
    intro b
    rw [add_frags_cons]
    have := ih (b.add_frag f)
    simpa [bio.add_frag] using this

/-- The mapper in closed form, with `L` the buffer length as the
`unsigned int` the mapper counts in: with room for every fragment it
returns 0 after adding the specified sequence; otherwise it returns
`-EAGAIN` after adding the fragments that still fitted. -/
theorem lz4e_add_buf_to_bio_eq (PAGE_SHIFT : Nat) (hps : PAGE_SHIFT < 32) (b : bio)
    (buf : lz4e_buffer) :
    lz4e_add_buf_to_bio PAGE_SHIFT b buf =
      if frags_needed (PAGE_SIZE PAGE_SHIFT) buf.data (to_uint buf.buf_size) ≤ b.free_vecs
      then some (0,
        b.add_frags (spec_frags (PAGE_SIZE PAGE_SHIFT) buf.data (to_uint buf.buf_size)))
      else some (-EAGAIN,
        b.add_frags ((spec_frags (PAGE_SIZE PAGE_SHIFT) buf.data
          (to_uint buf.buf_size)).take b.free_vecs)) := by
  have hPS := PAGE_SIZE_pos PAGE_SHIFT
  have hlt := PAGE_SIZE_lt PAGE_SHIFT hps
  have ho : buf.data % PAGE_SIZE PAGE_SHIFT < PAGE_SIZE PAGE_SHIFT := Nat.mod_lt _ hPS
  have hL : to_uint buf.buf_size < UINT_RANGE := Nat.mod_lt _ (by decide)
  have e1 : to_uint (to_uint buf.buf_size) = to_uint buf.buf_size := Nat.mod_eq_of_lt hL
  have e2 : to_uint (offset_in_page PAGE_SHIFT buf.data) = buf.data % PAGE_SIZE PAGE_SHIFT := by
    unfold to_uint offset_in_page
    exact Nat.mod_eq_of_lt (by omega)
  have e3 : to_uint (PAGE_SIZE PAGE_SHIFT - buf.data % PAGE_SIZE PAGE_SHIFT) =
      PAGE_SIZE PAGE_SHIFT - buf.data % PAGE_SIZE PAGE_SHIFT := by
    unfold to_uint
    exact Nat.mod_eq_of_lt (by omega)
  unfold lz4e_add_buf_to_bio
  simp only [e1, e2, e3]
  rw [add_buf_loop_eq PAGE_SHIFT hlt _ _ _ _ _ _ (Nat.le_refl _) hL (Or.inr ⟨rfl, rfl⟩),
    spec_frags_length _ _ _ hPS]


theorem spec_frags_tail_offset (PS a L : Nat) (hPS : 0 < PS) :
    ∀ f ∈ (spec_frags PS a L).tail, f.bv_offset = 0 := by
  intro f hf
  have key := spec_frags_get PS a L hPS
  cases hs : spec_frags PS a L with
  | nil => rw [hs] at hf; simp at hf
  | cons x xs =>
    rw [hs] at hf key
    simp only [List.tail_cons] at hf
    obtain ⟨i, hi⟩ := List.mem_iff_getElem?.mp hf
    exact (key (i + 1) f (by simpa using hi)).2.2.2.2.1 (by omega)

theorem spec_frags_within_page (PS a L : Nat) (hPS : 0 < PS) :
    ∀ f ∈ spec_frags PS a L, f.bv_offset + f.bv_len ≤ PS := by
  intro f hf
  obtain ⟨i, hi⟩ := List.mem_iff_getElem?.mp hf
  exact (spec_frags_get PS a L hPS i f hi).2.2.1

/-! ## The buffer mapper: claims C1, C2, C10 -/

/-- C1. Buffer mapper round trip: for every buffer (start address
`buf.data`, length `buf.buf_size`, a value of the `unsigned int` the mapper
counts in) and every descriptor with enough free fragment slots that no
`bio_add_page` call is refused, `lz4e_add_buf_to_bio` returns 0 and the
fragments it appended satisfy: (i) their lengths sum to exactly the buffer
length, (ii) every fragment after the first has page offset 0, (iii) every
fragment has offset + length at most `PAGE_SIZE`. -/
theorem C1_mapper_round_trip (PAGE_SHIFT : Nat) (hps : PAGE_SHIFT < 32) (b : bio)
    (buf : lz4e_buffer) (hL : buf.buf_size < UINT_RANGE)
    (hcap : frags_needed (PAGE_SIZE PAGE_SHIFT) buf.data buf.buf_size ≤
      b.bi_max_vecs - b.bi_vcnt) :
    ∃ b' frags, lz4e_add_buf_to_bio PAGE_SHIFT b buf = some (0, b') ∧
      b'.bi_io_vec = b.bi_io_vec ++ frags ∧
      frags_len frags = buf.buf_size ∧
      (∀ f ∈ frags.tail, f.bv_offset = 0) ∧
      (∀ f ∈ frags, f.bv_offset + f.bv_len ≤ PAGE_SIZE PAGE_SHIFT) := by
  have hPS := PAGE_SIZE_pos PAGE_SHIFT
  refine ⟨b.add_frags (spec_frags (PAGE_SIZE PAGE_SHIFT) buf.data buf.buf_size),
    spec_frags (PAGE_SIZE PAGE_SHIFT) buf.data buf.buf_size, ?_, ?_, ?_, ?_, ?_⟩
  · rw [lz4e_add_buf_to_bio_eq PAGE_SHIFT hps b buf, to_uint_of_lt _ hL,
      if_pos (by unfold bio.free_vecs; exact hcap)]
  · exact add_frags_vec _ _
  · exact frags_len_spec _ hPS _ _ _ (Nat.le_refl _)
  · exact spec_frags_tail_offset _ _ _ hPS
  · exact spec_frags_within_page _ _ _ hPS

/-- Witness of C1: a 10000-byte buffer at offset 100 of a 4096-byte page
mapped onto an empty descriptor with four slots. -/
theorem C1_mapper_round_trip_witness :
    (12 < 32 ∧ ex_buf.buf_size < UINT_RANGE ∧
      frags_needed (PAGE_SIZE 12) ex_buf.data ex_buf.buf_size ≤
        ex_bio.bi_max_vecs - ex_bio.bi_vcnt) ∧
    ∃ b' frags, lz4e_add_buf_to_bio 12 ex_bio ex_buf = some (0, b') ∧
      b'.bi_io_vec = ex_bio.bi_io_vec ++ frags ∧
      frags_len frags = ex_buf.buf_size ∧
      (∀ f ∈ frags.tail, f.bv_offset = 0) ∧
      (∀ f ∈ frags, f.bv_offset + f.bv_len ≤ PAGE_SIZE 12) :=
  ⟨⟨by decide, by decide, by decide⟩,
    C1_mapper_round_trip 12 (by decide) ex_bio ex_buf (by decide) (by decide)⟩

/-- C2. The buffer mapper never silently truncates: for every buffer
(length a value of the `unsigned int` the mapper counts in) and every
descriptor, `lz4e_add_buf_to_bio` returns; if the descriptor has fewer free
fragment slots than the buffer needs, so that a `bio_add_page` call is
refused before all bytes are appended, it returns `-EAGAIN`; it returns
nothing but 0 or `-EAGAIN`; whenever it returns 0 the lengths of the
fragments it appended sum to exactly the buffer length; and whenever the
appended lengths fall short of the buffer length it returns `-EAGAIN`. -/
theorem C2_mapper_never_truncates (PAGE_SHIFT : Nat) (hps : PAGE_SHIFT < 32) (b : bio)
    (buf : lz4e_buffer) (hL : buf.buf_size < UINT_RANGE) :
    ∃ ret b', lz4e_add_buf_to_bio PAGE_SHIFT b buf = some (ret, b') ∧
      (b.bi_max_vecs - b.bi_vcnt <
          frags_needed (PAGE_SIZE PAGE_SHIFT) buf.data buf.buf_size → ret = -EAGAIN) ∧
      (ret = 0 ∨ ret = -EAGAIN) ∧
      (ret = 0 → frags_len (b'.bi_io_vec.drop b.bi_io_vec.length) = buf.buf_size) ∧
      (frags_len (b'.bi_io_vec.drop b.bi_io_vec.length) < buf.buf_size →
        ret = -EAGAIN) := by
  have hPS := PAGE_SIZE_pos PAGE_SHIFT
  have hsum := frags_len_spec _ hPS _ buf.data buf.buf_size (Nat.le_refl _)
  rw [lz4e_add_buf_to_bio_eq PAGE_SHIFT hps b buf, to_uint_of_lt _ hL]
  by_cases hcap : frags_needed (PAGE_SIZE PAGE_SHIFT) buf.data buf.buf_size ≤ b.free_vecs
  · rw [if_pos hcap]
    refine ⟨0, b.add_frags (spec_frags (PAGE_SIZE PAGE_SHIFT) buf.data buf.buf_size), rfl, ?_,
      Or.inl rfl, ?_, ?_⟩
    · intro h; unfold bio.free_vecs at hcap; omega
    · intro _; rw [add_frags_vec]; simpa using hsum
    · intro h; rw [add_frags_vec] at h; simp at h; omega
  · rw [if_neg hcap]
    exact ⟨_, _, rfl, fun _ => rfl, Or.inr rfl, fun h => by simp [EAGAIN] at h,
      fun _ => rfl⟩

/-- Witness of C2: the 10000-byte example buffer on the four-slot
descriptor. -/
theorem C2_mapper_never_truncates_witness :
    (12 < 32 ∧ ex_buf.buf_size < UINT_RANGE) ∧
    ∃ ret b', lz4e_add_buf_to_bio 12 ex_bio ex_buf = some (ret, b') ∧
      (ex_bio.bi_max_vecs - ex_bio.bi_vcnt <
          frags_needed (PAGE_SIZE 12) ex_buf.data ex_buf.buf_size → ret = -EAGAIN) ∧
      (ret = 0 ∨ ret = -EAGAIN) ∧
      (ret = 0 → frags_len (b'.bi_io_vec.drop ex_bio.bi_io_vec.length) = ex_buf.buf_size) ∧
      (frags_len (b'.bi_io_vec.drop ex_bio.bi_io_vec.length) < ex_buf.buf_size →
        ret = -EAGAIN) :=
  ⟨⟨by decide, by decide⟩, C2_mapper_never_truncates 12 (by decide) ex_bio ex_buf (by decide)⟩


/-- C10, as stated, fails: for the empty buffer at address 16 the mapper
returns 0 and appends nothing, so the number of fragments is 0, while
`ceil((o + L) / PAGE_SIZE)` with `o = 16`, `L = 0` is 1. -/
theorem C10_counterexample :
    lz4e_add_buf_to_bio 12 ex_bio ex_empty_buf = some (0, ex_bio) ∧
    (ex_bio.bi_io_vec.drop ex_bio.bi_io_vec.length).length = 0 ∧
    DIV_ROUND_UP (offset_in_page 12 ex_empty_buf.data + ex_empty_buf.buf_size)
      (PAGE_SIZE 12) = 1 ∧
    ¬ ((ex_bio.bi_io_vec.drop ex_bio.bi_io_vec.length).length =
      DIV_ROUND_UP (offset_in_page 12 ex_empty_buf.data + ex_empty_buf.buf_size)
        (PAGE_SIZE 12)) := by
  decide

/-- C10 (amended). Fragment shape and termination of the buffer mapper:
for every buffer with start address `a` and length `L` (a value of the
`unsigned int` the mapper counts in), the loop of `lz4e_add_buf_to_bio`
finishes, within `L` iterations, whatever the descriptor; and when the
descriptor has room so that no fragment is refused, it returns 0 and the
appended fragment sequence is exactly `spec_frags`: nothing if `L = 0`;
otherwise a first fragment with offset `o = a mod PAGE_SIZE` and length
`min(L, PAGE_SIZE - o)`, followed by fragments at offset 0 that are each
exactly `PAGE_SIZE` long except possibly the last; the lengths sum to `L`
(the last takes what remains); every fragment has length > 0; the fragment
at position `i` addresses page `a / PAGE_SIZE + i`; and the number of
fragments is `ceil((o + L) / PAGE_SIZE)` when `L > 0` and 0 when `L = 0`. -/
theorem C10_mapper_shape (PAGE_SHIFT : Nat) (hps : PAGE_SHIFT < 32) (b : bio)
    (buf : lz4e_buffer) (hL : buf.buf_size < UINT_RANGE) :
    (∃ r, lz4e_add_buf_to_bio PAGE_SHIFT b buf = some r ∧
      ∀ fuel, buf.buf_size ≤ fuel →
        add_buf_loop PAGE_SHIFT fuel b buf.data (to_uint buf.buf_size)
          (to_uint (offset_in_page PAGE_SHIFT buf.data))
          (min (to_uint (to_uint buf.buf_size))
            (to_uint (PAGE_SIZE PAGE_SHIFT - to_uint (offset_in_page PAGE_SHIFT buf.data))))
          = some r) ∧
    (frags_needed (PAGE_SIZE PAGE_SHIFT) buf.data buf.buf_size ≤ b.bi_max_vecs - b.bi_vcnt →
      ∃ b' frags, lz4e_add_buf_to_bio PAGE_SHIFT b buf = some (0, b') ∧
        b'.bi_io_vec = b.bi_io_vec ++ frags ∧
        frags = spec_frags (PAGE_SIZE PAGE_SHIFT) buf.data buf.buf_size ∧
        (buf.buf_size = 0 → frags = []) ∧
        (0 < buf.buf_size → frags[0]? = some
          ⟨buf.data / PAGE_SIZE PAGE_SHIFT,
            min buf.buf_size (PAGE_SIZE PAGE_SHIFT - buf.data % PAGE_SIZE PAGE_SHIFT),
            buf.data % PAGE_SIZE PAGE_SHIFT⟩) ∧
        (∀ i f, frags[i]? = some f →
          0 < f.bv_len ∧ f.bv_page = buf.data / PAGE_SIZE PAGE_SHIFT + i ∧
          (0 < i → f.bv_offset = 0 ∧
            (i + 1 < frags.length → f.bv_len = PAGE_SIZE PAGE_SHIFT))) ∧
        frags_len frags = buf.buf_size ∧
        frags.length =
          if buf.buf_size = 0 then 0
          else DIV_ROUND_UP (buf.data % PAGE_SIZE PAGE_SHIFT + buf.buf_size)
            (PAGE_SIZE PAGE_SHIFT)) := by
  have hPS := PAGE_SIZE_pos PAGE_SHIFT
  have hlt := PAGE_SIZE_lt PAGE_SHIFT hps
  have ho : buf.data % PAGE_SIZE PAGE_SHIFT < PAGE_SIZE PAGE_SHIFT := Nat.mod_lt _ hPS
  have heq := lz4e_add_buf_to_bio_eq PAGE_SHIFT hps b buf
  rw [to_uint_of_lt _ hL] at heq
  constructor
  · have e1 : to_uint buf.buf_size = buf.buf_size := to_uint_of_lt _ hL
    have e2 : to_uint (offset_in_page PAGE_SHIFT buf.data) =
        buf.data % PAGE_SIZE PAGE_SHIFT := by
      unfold to_uint offset_in_page
      exact Nat.mod_eq_of_lt (by omega)
    have e3 : to_uint (PAGE_SIZE PAGE_SHIFT - buf.data % PAGE_SIZE PAGE_SHIFT) =
        PAGE_SIZE PAGE_SHIFT - buf.data % PAGE_SIZE PAGE_SHIFT := by
      unfold to_uint
      exact Nat.mod_eq_of_lt (by omega)
    have hloop : ∀ fuel, buf.buf_size ≤ fuel →
        add_buf_loop PAGE_SHIFT fuel b buf.data (to_uint buf.buf_size)
          (to_uint (offset_in_page PAGE_SHIFT buf.data))
          (min (to_uint (to_uint buf.buf_size))
            (to_uint (PAGE_SIZE PAGE_SHIFT - to_uint (offset_in_page PAGE_SHIFT buf.data))))
          = lz4e_add_buf_to_bio PAGE_SHIFT b buf := by
      intro fuel hfuel
      rw [heq]
      simp only [e1, e2, e3]
      rw [add_buf_loop_eq PAGE_SHIFT hlt _ _ _ _ _ _ hfuel hL (Or.inr ⟨rfl, rfl⟩),
        spec_frags_length _ _ _ hPS]
    by_cases hcap : frags_needed (PAGE_SIZE PAGE_SHIFT) buf.data buf.buf_size ≤ b.free_vecs
    · refine ⟨_, by rw [heq, if_pos hcap], fun fuel hfuel => ?_⟩
      rw [hloop fuel hfuel, heq, if_pos hcap]
    · refine ⟨_, by rw [heq, if_neg hcap], fun fuel hfuel => ?_⟩
      rw [hloop fuel hfuel, heq, if_neg hcap]
  · intro hcap
    refine ⟨b.add_frags (spec_frags (PAGE_SIZE PAGE_SHIFT) buf.data buf.buf_size),
      spec_frags (PAGE_SIZE PAGE_SHIFT) buf.data buf.buf_size, ?_, ?_, rfl, ?_, ?_, ?_, ?_, ?_⟩
    · rw [heq, if_pos (by unfold bio.free_vecs; exact hcap)]
    · exact add_frags_vec _ _
    · intro h0; rw [h0, spec_frags_zero]
    · intro hpos
      rw [spec_frags, if_neg (by omega)]
      simp
    · intro i f hf
      have key := spec_frags_get _ buf.data buf.buf_size hPS i f hf
      exact ⟨key.2.1, key.1, fun hi => ⟨key.2.2.2.2.1 hi, key.2.2.2.2.2 hi⟩⟩
    · exact frags_len_spec _ hPS _ _ _ (Nat.le_refl _)
    · rw [spec_frags_length _ _ _ hPS, frags_needed]

/-- Witness of C10 (amended): the 10000-byte example buffer on the
four-slot descriptor. -/
theorem C10_mapper_shape_witness :
    (12 < 32 ∧ ex_buf.buf_size < UINT_RANGE ∧
      frags_needed (PAGE_SIZE 12) ex_buf.data ex_buf.buf_size ≤
        ex_bio.bi_max_vecs - ex_bio.bi_vcnt) ∧
    (∃ r, lz4e_add_buf_to_bio 12 ex_bio ex_buf = some r ∧
      ∀ fuel, ex_buf.buf_size ≤ fuel →
        add_buf_loop 12 fuel ex_bio ex_buf.data (to_uint ex_buf.buf_size)
          (to_uint (offset_in_page 12 ex_buf.data))
          (min (to_uint (to_uint ex_buf.buf_size))
            (to_uint (PAGE_SIZE 12 - to_uint (offset_in_page 12 ex_buf.data))))
          = some r) ∧
    (frags_needed (PAGE_SIZE 12) ex_buf.data ex_buf.buf_size ≤
        ex_bio.bi_max_vecs - ex_bio.bi_vcnt →
      ∃ b' frags, lz4e_add_buf_to_bio 12 ex_bio ex_buf = some (0, b') ∧
        b'.bi_io_vec = ex_bio.bi_io_vec ++ frags ∧
        frags = spec_frags (PAGE_SIZE 12) ex_buf.data ex_buf.buf_size ∧
        (ex_buf.buf_size = 0 → frags = []) ∧
        (0 < ex_buf.buf_size → frags[0]? = some
          ⟨ex_buf.data / PAGE_SIZE 12,
            min ex_buf.buf_size (PAGE_SIZE 12 - ex_buf.data % PAGE_SIZE 12),
            ex_buf.data % PAGE_SIZE 12⟩) ∧
        (∀ i f, frags[i]? = some f →
          0 < f.bv_len ∧ f.bv_page = ex_buf.data / PAGE_SIZE 12 + i ∧
          (0 < i → f.bv_offset = 0 ∧ (i + 1 < frags.length → f.bv_len = PAGE_SIZE 12))) ∧
        frags_len frags = ex_buf.buf_size ∧
        frags.length =
          if ex_buf.buf_size = 0 then 0
          else DIV_ROUND_UP (ex_buf.data % PAGE_SIZE 12 + ex_buf.buf_size) (PAGE_SIZE 12)) :=
  ⟨⟨by decide, by decide, by decide⟩,
    C10_mapper_shape 12 (by decide) ex_bio ex_buf (by decide)⟩

/-! ## Lemmas on write initialisation -/

@[simp] theorem store_same {α : Type} (m : Ptr → α) (p : Ptr) (v : α) : store m p v p = v := by
  simp [store]

@[simp] theorem store_store {α : Type} (m : Ptr → α) (p : Ptr) (v v' : α) :
    store (store m p v) p v' = store m p v' := by
  funext q
  simp only [store]
  split <;> rfl

theorem store_ne {α : Type} (m : Ptr → α) (p q : Ptr) (v : α) (h : q ≠ p) :
    store m p v q = m q := by
  simp [store, h]

theorem store_opf (m : Ptr → bio) (p q : Ptr) (v : bio) (h : v.bi_opf = (m q).bi_opf) :
    (store m p v q).bi_opf = (m q).bi_opf := by
  unfold store
  split
  · exact h
  · rfl

@[simp] theorem add_frags_max_vecs (b : bio) (fs : List bio_vec) :
    (b.add_frags fs).bi_max_vecs = b.bi_max_vecs := (add_frags_frame fs b).1

@[simp] theorem add_frags_opf (b : bio) (fs : List bio_vec) :
    (b.add_frags fs).bi_opf = b.bi_opf := (add_frags_frame fs b).2.1

@[simp] theorem add_frags_sector (b : bio) (fs : List bio_vec) :
    (b.add_frags fs).bi_iter.bi_sector = b.bi_iter.bi_sector := (add_frags_frame fs b).2.2.1

theorem EAGAIN_ne : (-EAGAIN ≠ 0) := by decide

theorem write_req_init_core (e : Env) (w : World) (lzreq original_bio : Ptr) (lzdev : lz4e_dev)
    (hps : e.PAGE_SHIFT < 32) :
    ∃ w', lz4e_write_req_init e w lzreq original_bio lzdev =
        some (write_status (first_failing_step e (w.bios original_bio).bi_iter.bi_size), w') ∧
      w'.events = w.events ++ write_trace e (w.bios original_bio) lzdev
        (first_failing_step e (w.bios original_bio).bi_iter.bi_size) ∧
      (first_failing_step e (w.bios original_bio).bi_iter.bi_size ≠ none →
        w'.reqs = w.reqs) := by
  unfold lz4e_write_req_init
  simp only [lz4e_add_buf_to_bio_eq _ hps]
  simp only [lz4e_chunk_alloc, lz4e_alloc_new_bio, bio_alloc_bioset, free_chunk, put_new_bio,
    lz4e_chunk_free, bio_put, lz4e_chunk_compress_ext, lz4e_chunk_decompress, lz4e_reset_bio,
    bio_reset, World.emit, World.set_bio, World.set_chunk, World.set_req]
  by_cases h1 : e.chunk_alloc_ret = 0
  · have hs : first_failing_step e (w.bios original_bio).bi_iter.bi_size =
        some Step.chunk_alloc := by simp [first_failing_step, h1]
    simp only [h1, if_true, hs]
    exact ⟨_, rfl, by simp [write_trace, h1], fun _ => rfl⟩
  · by_cases h2 : e.bio_alloc_ret = 0
    · have hs : first_failing_step e (w.bios original_bio).bi_iter.bi_size =
          some Step.bio_alloc := by simp [first_failing_step, h1, h2]
      simp only [h1, h2, if_true, if_false, hs]
      exact ⟨_, rfl, by simp [write_trace, h2], fun _ => rfl⟩
    · simp only [h1, h2, if_false, store_same, store_store, bio.free_vecs, bio.bi_vcnt,
        List.length_nil, Nat.sub_zero]
      by_cases hd : frags_needed (PAGE_SIZE e.PAGE_SHIFT) e.chunk_alloc_val.dst_buf.data
          (to_uint e.chunk_alloc_val.dst_buf.buf_size) ≤
          lz4e_bio_bytes_to_pages e.PAGE_SHIFT
            (LZ4_COMPRESSBOUND (w.bios original_bio).bi_iter.bi_size)
      · simp only [hd, if_true, ne_eq, not_true, if_false]
        by_cases hc : e.compress_ret = 0
        · simp only [hc, not_true, if_false]
          by_cases hdc : e.decompress_ret = 0
          · simp only [hdc, not_true, if_false, store_same, store_store, add_frags_max_vecs]
            rw [store_opf _ _ _ _ (by simp)]
            by_cases hsrc : frags_needed (PAGE_SIZE e.PAGE_SHIFT) e.chunk_alloc_val.src_buf.data
                (to_uint e.chunk_alloc_val.src_buf.buf_size) ≤
                lz4e_bio_bytes_to_pages e.PAGE_SHIFT
                  (LZ4_COMPRESSBOUND (w.bios original_bio).bi_iter.bi_size)
            · have hs : first_failing_step e (w.bios original_bio).bi_iter.bi_size = none := by
                simp [first_failing_step, h1, h2, Nat.not_lt.mpr hd, Nat.not_lt.mpr hsrc, hc, hdc]
              simp only [hsrc, if_true, hs, not_true, if_false]
              exact ⟨_, rfl, by simp [write_trace, hc, hdc], fun h => h.elim⟩
            · have hs : first_failing_step e (w.bios original_bio).bi_iter.bi_size =
                  some Step.map_src := by
                simp [first_failing_step, h1, h2, Nat.not_lt.mpr hd, Nat.lt_of_not_le hsrc, hc,
                  hdc]
              simp only [hsrc, if_false, hs, ne_eq, EAGAIN_ne, not_false_eq_true, if_true]
              exact ⟨_, rfl, by simp [write_trace, hc, hdc], fun _ => rfl⟩
          · have hs : first_failing_step e (w.bios original_bio).bi_iter.bi_size =
                some Step.decompress := by
              simp [first_failing_step, h1, h2, Nat.not_lt.mpr hd, hc, hdc]
            simp only [hdc, not_false_eq_true, if_true, hs]
            exact ⟨_, rfl, by simp [write_trace, hc], fun _ => rfl⟩
        · have hs : first_failing_step e (w.bios original_bio).bi_iter.bi_size =
              some Step.compress := by
            simp [first_failing_step, h1, h2, Nat.not_lt.mpr hd, hc]
          simp only [hc, not_false_eq_true, if_true, hs]
          exact ⟨_, rfl, by simp [write_trace], fun _ => rfl⟩
      · have hs : first_failing_step e (w.bios original_bio).bi_iter.bi_size =
          some Step.map_dst := by
          simp [first_failing_step, h1, h2, Nat.lt_of_not_le hd]
        simp only [hd, if_false, hs, ne_eq, EAGAIN_ne, not_false_eq_true, if_true]
        exact ⟨_, rfl, by simp [write_trace], fun _ => rfl⟩


/-! ## Write initialisation: claims C3, C9 -/

/-- C3. Write-path rollback completeness: `lz4e_write_req_init` returns,
and when the status is not OK then, among the events of the call, the
allocations and releases are exactly, in this order: (c) for a failed
chunk allocation, the failed allocation alone, nothing released; for a
failed descriptor allocation, the chunk allocation, the failed descriptor
allocation, and `lz4e_chunk_free` of the chunk; (a, b) for every later
failure (mapping of dst_buf, compress, decompress, mapping of src_buf),
the two allocations, then `bio_put` of the descriptor once, then
`lz4e_chunk_free` of the chunk once; and (d) no request context has been
modified. -/
theorem C3_write_rollback (e : Env) (w : World) (lzreq original_bio : Ptr)
    (lzdev : lz4e_dev) (hps : e.PAGE_SHIFT < 32) :
    ∃ st w' t, lz4e_write_req_init e w lzreq original_bio lzdev = some (st, w') ∧
      w'.events = w.events ++ t ∧
      (st ≠ BLK_STS_OK →
        (e.chunk_alloc_ret = 0 →
          t.filter (fun ev => is_alloc ev || is_release ev) =
            [Event.lz4e_chunk_alloc (uint_to_int (w.bios original_bio).bi_iter.bi_size) 0]) ∧
        (e.chunk_alloc_ret ≠ 0 → e.bio_alloc_ret = 0 →
          t.filter (fun ev => is_alloc ev || is_release ev) =
            [Event.lz4e_chunk_alloc (uint_to_int (w.bios original_bio).bi_iter.bi_size)
               e.chunk_alloc_ret,
             Event.bio_alloc_bioset lzdev.under_dev.bdev
               (lz4e_bio_bytes_to_pages e.PAGE_SHIFT
                 (LZ4_COMPRESSBOUND (w.bios original_bio).bi_iter.bi_size))
               (w.bios original_bio).bi_opf GFP_NOIO lzdev.under_dev.bset 0,
             Event.lz4e_chunk_free e.chunk_alloc_ret]) ∧
        (e.chunk_alloc_ret ≠ 0 → e.bio_alloc_ret ≠ 0 →
          t.filter (fun ev => is_alloc ev || is_release ev) =
            [Event.lz4e_chunk_alloc (uint_to_int (w.bios original_bio).bi_iter.bi_size)
               e.chunk_alloc_ret,
             Event.bio_alloc_bioset lzdev.under_dev.bdev
               (lz4e_bio_bytes_to_pages e.PAGE_SHIFT
                 (LZ4_COMPRESSBOUND (w.bios original_bio).bi_iter.bi_size))
               (w.bios original_bio).bi_opf GFP_NOIO lzdev.under_dev.bset e.bio_alloc_ret,
             Event.bio_put e.bio_alloc_ret,
             Event.lz4e_chunk_free e.chunk_alloc_ret]) ∧
        w'.reqs = w.reqs) := by
  obtain ⟨w', hinit, hev, hreq⟩ := write_req_init_core e w lzreq original_bio lzdev hps
  refine ⟨_, w', _, hinit, hev, ?_⟩
  generalize hs : first_failing_step e (w.bios original_bio).bi_iter.bi_size = s at hreq
  intro hst
  unfold first_failing_step at hs
  simp only at hs
  split_ifs at hs with h1 h2 h3 h4 h5 h6 <;> subst hs
  · simp [write_trace, is_alloc, is_release, h1]
    exact hreq (by simp)
  · simp [write_trace, is_alloc, is_release, h1, h2]
    exact hreq (by simp)
  · simp [write_trace, is_alloc, is_release, h1, h2]
    exact hreq (by simp)
  · simp [write_trace, is_alloc, is_release, h1, h2]
    exact hreq (by simp)
  · simp [write_trace, is_alloc, is_release, h1, h2]
    exact hreq (by simp)
  · simp [write_trace, is_alloc, is_release, h1, h2]
    exact hreq (by simp)
  · exact absurd rfl hst


theorem first_failing_step_none (e : Env) (payload : Nat)
    (h : first_failing_step e payload = none) :
    e.chunk_alloc_ret ≠ 0 ∧ e.bio_alloc_ret ≠ 0 ∧
    frags_needed (PAGE_SIZE e.PAGE_SHIFT) e.chunk_alloc_val.dst_buf.data
      (to_uint e.chunk_alloc_val.dst_buf.buf_size) ≤
      lz4e_bio_bytes_to_pages e.PAGE_SHIFT (LZ4_COMPRESSBOUND payload) ∧
    e.compress_ret = 0 ∧ e.decompress_ret = 0 ∧
    frags_needed (PAGE_SIZE e.PAGE_SHIFT) e.chunk_alloc_val.src_buf.data
      (to_uint e.chunk_alloc_val.src_buf.buf_size) ≤
      lz4e_bio_bytes_to_pages e.PAGE_SHIFT (LZ4_COMPRESSBOUND payload) := by
  unfold first_failing_step at h
  simp only at h
  split_ifs at h with h1 h2 h3 h4 h5 h6
  exact ⟨h1, h2, Nat.not_lt.mp h3, not_not.mp h4, not_not.mp h5, Nat.not_lt.mp h6⟩

/-- C9. Write initialisation success state: for every write request on
which every step of `lz4e_write_req_init` succeeds (no first failing step:
both allocations answer non-null, both buffers fit the descriptor's
capacity, compress and decompress answer 0), the shadow descriptor being a
new object distinct from the original request, the call returns OK and on
return (a) the shadow descriptor's fragment list is exactly the result of
mapping `chunk.src_buf` onto an empty descriptor, the specified fragments
of `src_buf` and nothing of `dst_buf`; (b) its starting sector and
operation flags equal the original request's; (c) `chunk.src_buf` is bound
to the original request and `chunk.dst_buf` to the shadow descriptor;
(d) the context holds `original_bio`, `new_bio`, `stats_to_update` = the
device's write statistics, and `chunk`; the events of the call are, in
order: chunk allocation, descriptor allocation, compress once, decompress
once, reset. -/
theorem C9_write_init_success (e : Env) (w : World) (lzreq original_bio : Ptr)
    (lzdev : lz4e_dev) (hps : e.PAGE_SHIFT < 32)
    (hfresh : e.bio_alloc_ret ≠ original_bio)
    (hok : first_failing_step e (w.bios original_bio).bi_iter.bi_size = none) :
    ∃ w', lz4e_write_req_init e w lzreq original_bio lzdev = some (BLK_STS_OK, w') ∧
      (w'.bios e.bio_alloc_ret).bi_io_vec =
        spec_frags (PAGE_SIZE e.PAGE_SHIFT) (w'.chunks e.chunk_alloc_ret).src_buf.data
          (to_uint (w'.chunks e.chunk_alloc_ret).src_buf.buf_size) ∧
      (∃ b0, b0.bi_io_vec = [] ∧
        lz4e_add_buf_to_bio e.PAGE_SHIFT b0 (w'.chunks e.chunk_alloc_ret).src_buf =
          some (0, w'.bios e.bio_alloc_ret)) ∧
      (w'.bios e.bio_alloc_ret).bi_iter.bi_sector = (w.bios original_bio).bi_iter.bi_sector ∧
      (w'.bios e.bio_alloc_ret).bi_opf = (w.bios original_bio).bi_opf ∧
      (w'.chunks e.chunk_alloc_ret).src_buf.bio = original_bio ∧
      (w'.chunks e.chunk_alloc_ret).dst_buf.bio = e.bio_alloc_ret ∧
      w'.reqs lzreq =
        { original_bio := original_bio, new_bio := e.bio_alloc_ret,
          stats_to_update := lzdev.write_stats, chunk := e.chunk_alloc_ret } ∧
      w'.events = w.events ++
        [Event.lz4e_chunk_alloc (uint_to_int (w.bios original_bio).bi_iter.bi_size)
           e.chunk_alloc_ret,
         Event.bio_alloc_bioset lzdev.under_dev.bdev
           (lz4e_bio_bytes_to_pages e.PAGE_SHIFT
             (LZ4_COMPRESSBOUND (w.bios original_bio).bi_iter.bi_size))
           (w.bios original_bio).bi_opf GFP_NOIO lzdev.under_dev.bset e.bio_alloc_ret,
         Event.lz4e_chunk_compress_ext e.chunk_alloc_ret 0,
         Event.lz4e_chunk_decompress e.chunk_alloc_ret 0,
         Event.bio_reset e.bio_alloc_ret lzdev.under_dev.bdev (w.bios original_bio).bi_opf] := by
  obtain ⟨h1, h2, hd, hc, hdc, hsrc⟩ := first_failing_step_none e _ hok
  have hne : original_bio ≠ e.bio_alloc_ret := fun h => hfresh h.symm
  unfold lz4e_write_req_init
  simp only [lz4e_add_buf_to_bio_eq _ hps]
  simp only [lz4e_chunk_alloc, lz4e_alloc_new_bio, bio_alloc_bioset, free_chunk, put_new_bio,
    lz4e_chunk_free, bio_put, lz4e_chunk_compress_ext, lz4e_chunk_decompress, lz4e_reset_bio,
    bio_reset, World.emit, World.set_bio, World.set_chunk, World.set_req]
  simp only [h1, h2, if_false, store_same, store_store, bio.free_vecs, bio.bi_vcnt,
    List.length_nil, Nat.sub_zero, hd, if_true, ne_eq, not_true, hc, hdc, add_frags_max_vecs,
    store_ne _ _ _ _ hne, hsrc]
  refine ⟨_, rfl, ?_, ?_, ?_, ?_, ?_, ?_, ?_, ?_⟩
  · simp [add_frags_vec]
  · refine ⟨{ bi_bdev := lzdev.under_dev.bdev, bi_opf := (w.bios original_bio).bi_opf,
               bi_status := 0,
               bi_iter := ⟨(w.bios original_bio).bi_iter.bi_sector, 0⟩,
               bi_end_io := 0, bi_private := 0,
               bi_max_vecs := lz4e_bio_bytes_to_pages e.PAGE_SHIFT
                 (LZ4_COMPRESSBOUND (w.bios original_bio).bi_iter.bi_size),
               bi_io_vec := [] }, rfl, ?_⟩
    simp only [store_same, bio.free_vecs, bio.bi_vcnt, List.length_nil, Nat.sub_zero, hsrc,
      if_true]
  · simp
  · simp
  · simp
  · simp
  · simp
  · simp


/-! ## Status classification and read initialisation: claims C4, C5 -/

/-- C4. Status classification of `lz4e_req_init`: it returns, and the
status is one of the four distinct values OK, `BLK_STS_RESOURCE`,
`BLK_STS_IOERR`, `BLK_STS_NOTSUPP`; it is `BLK_STS_NOTSUPP` if and only if
the operation kind is neither read nor write, and then the world is
unchanged (nothing allocated, no context modified); for a read it is
`BLK_STS_RESOURCE` iff the descriptor allocation fails and OK otherwise;
for a write it is `BLK_STS_RESOURCE` iff the first failing step is the
chunk or the descriptor allocation, `BLK_STS_IOERR` iff the first failing
step is a buffer mapping (dst_buf or src_buf), compress or decompress, and
OK iff no step fails. -/
theorem C4_status_classification (e : Env) (w : World) (lzreq original_bio : Ptr)
    (lzdev : lz4e_dev) (hps : e.PAGE_SHIFT < 32) :
    ∃ st w', lz4e_req_init e w lzreq original_bio lzdev = some (st, w') ∧
      st ∈ [BLK_STS_OK, BLK_STS_RESOURCE, BLK_STS_IOERR, BLK_STS_NOTSUPP] ∧
      [BLK_STS_OK, BLK_STS_RESOURCE, BLK_STS_IOERR, BLK_STS_NOTSUPP].Nodup ∧
      (st = BLK_STS_NOTSUPP ↔
        bio_op (w.bios original_bio) ≠ REQ_OP_READ ∧
        bio_op (w.bios original_bio) ≠ REQ_OP_WRITE) ∧
      (bio_op (w.bios original_bio) ≠ REQ_OP_READ →
        bio_op (w.bios original_bio) ≠ REQ_OP_WRITE → w' = w) ∧
      (bio_op (w.bios original_bio) = REQ_OP_READ →
        (st = BLK_STS_RESOURCE ↔ e.bio_alloc_ret = 0) ∧
        (st = BLK_STS_OK ↔ e.bio_alloc_ret ≠ 0)) ∧
      (bio_op (w.bios original_bio) = REQ_OP_WRITE →
        (st = BLK_STS_RESOURCE ↔
          first_failing_step e (w.bios original_bio).bi_iter.bi_size = some Step.chunk_alloc ∨
          first_failing_step e (w.bios original_bio).bi_iter.bi_size = some Step.bio_alloc) ∧
        (st = BLK_STS_IOERR ↔
          first_failing_step e (w.bios original_bio).bi_iter.bi_size = some Step.map_dst ∨
          first_failing_step e (w.bios original_bio).bi_iter.bi_size = some Step.compress ∨
          first_failing_step e (w.bios original_bio).bi_iter.bi_size = some Step.decompress ∨
          first_failing_step e (w.bios original_bio).bi_iter.bi_size = some Step.map_src) ∧
        (st = BLK_STS_OK ↔
          first_failing_step e (w.bios original_bio).bi_iter.bi_size = none)) := by
  have hnodup : [BLK_STS_OK, BLK_STS_RESOURCE, BLK_STS_IOERR, BLK_STS_NOTSUPP].Nodup := by
    decide
  unfold lz4e_req_init
  by_cases hr : bio_op (w.bios original_bio) = REQ_OP_READ
  · have hnw : bio_op (w.bios original_bio) ≠ REQ_OP_WRITE := by
      rw [hr]; decide
    simp only [hr, if_true]
    unfold lz4e_read_req_init bio_alloc bio_alloc_bioset
    by_cases h2 : e.bio_alloc_ret = 0
    · simp only [h2, if_true]
      refine ⟨_, _, rfl, by simp, hnodup, ?_, ?_, ?_, ?_⟩
      · simp [BLK_STS_RESOURCE, BLK_STS_NOTSUPP]
      · intro h; exact absurd rfl h
      · intro _; simp [BLK_STS_RESOURCE, BLK_STS_OK]
      · intro h; exact absurd h (by decide)
    · simp only [h2, if_false]
      refine ⟨_, _, rfl, by simp, hnodup, ?_, ?_, ?_, ?_⟩
      · simp [BLK_STS_OK, BLK_STS_NOTSUPP]
      · intro h; exact absurd rfl h
      · intro _; simp [BLK_STS_RESOURCE, BLK_STS_OK, h2]
      · intro h; exact absurd h (by decide)
  · by_cases hw : bio_op (w.bios original_bio) = REQ_OP_WRITE
    · simp only [hr, hw, if_true, if_false]
      obtain ⟨w', hinit, _, _⟩ := write_req_init_core e w lzreq original_bio lzdev hps
      refine ⟨_, w', hinit, ?_, hnodup, ?_, ?_, ?_, ?_⟩
      · generalize first_failing_step e (w.bios original_bio).bi_iter.bi_size = s
        rcases s with _ | s
        · simp [write_status]
        · cases s <;> simp [write_status]
      · generalize first_failing_step e (w.bios original_bio).bi_iter.bi_size = s
        rcases s with _ | s
        · simp [write_status, BLK_STS_OK, BLK_STS_NOTSUPP, hw, REQ_OP_READ, REQ_OP_WRITE]
        · cases s <;>
            simp [write_status, BLK_STS_RESOURCE, BLK_STS_IOERR, BLK_STS_NOTSUPP, hw,
              REQ_OP_READ, REQ_OP_WRITE]
      · intro _ h; exact absurd rfl h
      · intro h; exact absurd h (by decide)
      · intro _
        generalize first_failing_step e (w.bios original_bio).bi_iter.bi_size = s
        rcases s with _ | s
        · simp [write_status, BLK_STS_OK, BLK_STS_RESOURCE, BLK_STS_IOERR]
        · cases s <;> simp [write_status, BLK_STS_OK, BLK_STS_RESOURCE, BLK_STS_IOERR]
    · simp only [hr, hw, if_false]
      refine ⟨_, _, rfl, by simp, hnodup, ?_, ?_, ?_, ?_⟩
      · simp [hr, hw]
      · intro _ _; rfl
      · intro h; exact h.elim
      · intro h; exact h.elim


/-- C5. Read initialisation: for every read request whose original
descriptor has `N` fragments, `lz4e_req_init` makes exactly one call to a
collaborator, the request for a shadow descriptor with fragment capacity
`N` and the read direction `REQ_OP_READ`; it allocates no chunk (no chunk
allocation is called, no chunk changes); when the descriptor allocation
succeeds it returns OK, the descriptor has capacity at least `N` and the
read direction, and the context holds `original_bio` = the original,
`new_bio` = the new descriptor, `stats_to_update` = the device's read
statistics, its `chunk` field being left as it was; so for a context
obtained from `lz4e_req_alloc`, which is zero-initialised, `chunk` is
null. -/
theorem C5_read_init (e : Env) (w : World) (original_bio : Ptr) (lzdev : lz4e_dev) (N : Nat)
    (hread : bio_op (w.bios original_bio) = REQ_OP_READ)
    (hN : (w.bios original_bio).bi_vcnt = N) :
    (∀ lzreq, ∃ st w', lz4e_req_init e w lzreq original_bio lzdev = some (st, w') ∧
      w'.events = w.events ++
        [Event.bio_alloc_bioset lzdev.under_dev.bdev N REQ_OP_READ GFP_NOIO e.fs_bio_set
          e.bio_alloc_ret] ∧
      w'.chunks = w.chunks ∧
      (e.bio_alloc_ret ≠ 0 →
        st = BLK_STS_OK ∧
        N ≤ (w'.bios e.bio_alloc_ret).bi_max_vecs ∧
        (w'.bios e.bio_alloc_ret).bi_opf = REQ_OP_READ ∧
        w'.reqs lzreq =
          { original_bio := original_bio, new_bio := e.bio_alloc_ret,
            stats_to_update := lzdev.read_stats, chunk := (w.reqs lzreq).chunk })) ∧
    (e.kzalloc_ret ≠ 0 → e.bio_alloc_ret ≠ 0 →
      (lz4e_req_alloc e w).1 = e.kzalloc_ret ∧
      ∃ w', lz4e_req_init e (lz4e_req_alloc e w).2 (lz4e_req_alloc e w).1 original_bio lzdev =
          some (BLK_STS_OK, w') ∧
        N ≤ (w'.bios e.bio_alloc_ret).bi_max_vecs ∧
        w'.reqs (lz4e_req_alloc e w).1 =
          { original_bio := original_bio, new_bio := e.bio_alloc_ret,
            stats_to_update := lzdev.read_stats, chunk := 0 }) := by
  constructor
  · intro lzreq
    unfold lz4e_req_init
    simp only [hread, if_true]
    unfold lz4e_read_req_init bio_alloc bio_alloc_bioset
    by_cases h2 : e.bio_alloc_ret = 0
    · simp only [h2, if_true]
      exact ⟨_, _, rfl, by simp [World.emit, hN], rfl, fun h => absurd rfl h⟩
    · simp only [h2, if_false]
      refine ⟨_, _, rfl, by simp [World.emit, World.set_req, World.set_bio, hN], rfl,
        fun _ => ⟨rfl, ?_, ?_, ?_⟩⟩
      · simp [World.emit, World.set_req, World.set_bio, hN]
      · simp [World.emit, World.set_req, World.set_bio]
      · simp [World.emit, World.set_req, World.set_bio]
  · intro hk h2
    unfold lz4e_req_alloc kzalloc_req
    simp only [hk, if_false]
    refine ⟨by first | rfl | trivial, ?_⟩
    unfold lz4e_req_init
    have hread' : bio_op ((World.set_req (w.emit (Event.kzalloc GFP_NOIO e.kzalloc_ret))
        e.kzalloc_ret ⟨0, 0, 0, 0⟩).bios original_bio) = REQ_OP_READ := hread
    simp only [hread', if_true]
    unfold lz4e_read_req_init bio_alloc bio_alloc_bioset
    simp only [h2, if_false]
    refine ⟨_, rfl, ?_, ?_⟩
    · simp [World.emit, World.set_req, World.set_bio]
      exact Nat.le_of_eq hN.symm
    · simp [World.emit, World.set_req, World.set_bio]

/-! ## Descriptor sizing and the compression bound: claims C6, C8 -/

/-- C6, as stated, fails: for a write of 1 MiB on 4096-byte pages the
compression bound is 1052704 bytes, which needs 258 pages, but the shadow
descriptor is requested, and created, with capacity 256. -/
theorem C6_counterexample :
    ((ex_world (ex_write_bio 1048576)).bios 1).bi_iter.bi_size = 1048576 ∧
    DIV_ROUND_UP (LZ4_COMPRESSBOUND 1048576) (PAGE_SIZE ex_env.PAGE_SHIFT) = 258 ∧
    (lz4e_alloc_new_bio ex_env (ex_world (ex_write_bio 1048576)) 1 ex_dev.under_dev).2.events =
      [Event.bio_alloc_bioset 10 256 REQ_OP_WRITE GFP_NOIO 11 2] ∧
    (((lz4e_alloc_new_bio ex_env (ex_world (ex_write_bio 1048576)) 1 ex_dev.under_dev).2.bios
      (lz4e_alloc_new_bio ex_env (ex_world (ex_write_bio 1048576)) 1
        ex_dev.under_dev).1).bi_max_vecs = 256) ∧
    ¬ (DIV_ROUND_UP (LZ4_COMPRESSBOUND 1048576) (PAGE_SIZE ex_env.PAGE_SHIFT) ≤
      ((lz4e_alloc_new_bio ex_env (ex_world (ex_write_bio 1048576)) 1 ex_dev.under_dev).2.bios
        (lz4e_alloc_new_bio ex_env (ex_world (ex_write_bio 1048576)) 1
          ex_dev.under_dev).1).bi_max_vecs) := by
  decide

theorem bytes_to_pages_eq (PAGE_SHIFT bytes : Nat) :
    lz4e_bio_bytes_to_pages PAGE_SHIFT bytes =
      min (DIV_ROUND_UP bytes (PAGE_SIZE PAGE_SHIFT)) BIO_MAX_VECS := by
  unfold lz4e_bio_bytes_to_pages
  simp only
  apply Nat.mod_eq_of_lt
  unfold BIO_MAX_VECS
  omega

/-- C6 (amended). Write shadow-descriptor sizing: for every write request
of payload length `L` (`bi_size`), `lz4e_alloc_new_bio` requests the shadow
descriptor with fragment capacity `min(ceil(LZ4_COMPRESSBOUND(L) /
PAGE_SIZE), BIO_MAX_VECS)`, the original request's operation flags
(`bi_opf`), and the underlying device and pool; so the capacity is at
least the compressed-bound page count whenever that count does not exceed
`BIO_MAX_VECS`; and when the allocation succeeds the new descriptor has
that capacity, those flags, and the original request's starting sector
(`bi_sector`). -/
theorem C6_write_descriptor_sizing (e : Env) (w : World) (original_bio : Ptr)
    (under_dev : lz4e_under_dev) (hfresh : e.bio_alloc_ret ≠ original_bio) :
    (lz4e_alloc_new_bio e w original_bio under_dev).1 = e.bio_alloc_ret ∧
    (lz4e_alloc_new_bio e w original_bio under_dev).2.events = w.events ++
      [Event.bio_alloc_bioset under_dev.bdev
        (min (DIV_ROUND_UP (LZ4_COMPRESSBOUND (w.bios original_bio).bi_iter.bi_size)
          (PAGE_SIZE e.PAGE_SHIFT)) BIO_MAX_VECS)
        (w.bios original_bio).bi_opf GFP_NOIO under_dev.bset e.bio_alloc_ret] ∧
    (DIV_ROUND_UP (LZ4_COMPRESSBOUND (w.bios original_bio).bi_iter.bi_size)
        (PAGE_SIZE e.PAGE_SHIFT) ≤ BIO_MAX_VECS →
      DIV_ROUND_UP (LZ4_COMPRESSBOUND (w.bios original_bio).bi_iter.bi_size)
        (PAGE_SIZE e.PAGE_SHIFT) ≤
      min (DIV_ROUND_UP (LZ4_COMPRESSBOUND (w.bios original_bio).bi_iter.bi_size)
        (PAGE_SIZE e.PAGE_SHIFT)) BIO_MAX_VECS) ∧
    (e.bio_alloc_ret ≠ 0 →
      ((lz4e_alloc_new_bio e w original_bio under_dev).2.bios e.bio_alloc_ret).bi_max_vecs =
        min (DIV_ROUND_UP (LZ4_COMPRESSBOUND (w.bios original_bio).bi_iter.bi_size)
          (PAGE_SIZE e.PAGE_SHIFT)) BIO_MAX_VECS ∧
      ((lz4e_alloc_new_bio e w original_bio under_dev).2.bios e.bio_alloc_ret).bi_opf =
        (w.bios original_bio).bi_opf ∧
      ((lz4e_alloc_new_bio e w original_bio under_dev).2.bios
        e.bio_alloc_ret).bi_iter.bi_sector = (w.bios original_bio).bi_iter.bi_sector ∧
      ((lz4e_alloc_new_bio e w original_bio under_dev).2.bios e.bio_alloc_ret).bi_bdev =
        under_dev.bdev) := by
  have hne : original_bio ≠ e.bio_alloc_ret := fun h => hfresh h.symm
  unfold lz4e_alloc_new_bio bio_alloc_bioset
  simp only [bytes_to_pages_eq]
  by_cases h2 : e.bio_alloc_ret = 0
  · simp only [h2, if_true]
    refine ⟨by first | rfl | trivial, by simp [World.emit], fun h => by omega,
      fun h => absurd rfl h⟩
  · simp only [h2, if_false]
    refine ⟨by first | rfl | trivial, by simp [World.emit, World.set_bio],
      fun h => by omega, fun _ => ?_⟩
    simp [World.emit, World.set_bio, store_ne _ _ _ _ hne]

/-- C8, as stated, fails: the bound of the largest accepted length
0x7E000000 is 2122219150, the bound of the next length is 0. -/
theorem C8_counterexample :
    0x7E000000 ≤ 0x7E000001 ∧ LZ4_COMPRESSBOUND 0x7E000000 = 2122219150 ∧
    LZ4_COMPRESSBOUND 0x7E000001 = 0 ∧
    ¬ (LZ4_COMPRESSBOUND 0x7E000000 ≤ LZ4_COMPRESSBOUND 0x7E000001) := by
  decide

/-- C8 (amended). Compression-bound monotonicity: on payload lengths up
to `LZ4_MAX_INPUT_SIZE` (0x7E000000) the bound `LZ4_COMPRESSBOUND` is
monotonic non-decreasing: for all `L1 ≤ L2 ≤ LZ4_MAX_INPUT_SIZE`,
`LZ4_COMPRESSBOUND L1 ≤ LZ4_COMPRESSBOUND L2`. -/
theorem C8_compressbound_monotone (L1 L2 : Nat) (h : L1 ≤ L2)
    (hmax : L2 ≤ LZ4_MAX_INPUT_SIZE) :
    LZ4_COMPRESSBOUND L1 ≤ LZ4_COMPRESSBOUND L2 := by
  unfold LZ4_COMPRESSBOUND to_uint UINT_RANGE
  unfold LZ4_MAX_INPUT_SIZE at *
  have e1 : L1 % 4294967296 = L1 := Nat.mod_eq_of_lt (by omega)
  have e2 : L2 % 4294967296 = L2 := Nat.mod_eq_of_lt (by omega)
  rw [e1, e2]
  have hdiv : L1 / 255 ≤ L2 / 255 := Nat.div_le_div_right h
  have hd2 : L2 / 255 ≤ 2113929216 / 255 := Nat.div_le_div_right hmax
  have e3 : (L1 + L1 / 255 + 16) % 4294967296 = L1 + L1 / 255 + 16 :=
    Nat.mod_eq_of_lt (by omega)
  have e4 : (L2 + L2 / 255 + 16) % 4294967296 = L2 + L2 / 255 + 16 :=
    Nat.mod_eq_of_lt (by omega)
  rw [if_neg (by omega), if_neg (by omega), e3, e4]
  omega

/-! ## Completion: claim C7 -/

/-- C7. Completion handling: for every shadow descriptor `new_bio`
completing with status `s` and carrying a context `ctx` (a non-null
`bi_private`), one invocation of `lz4e_end_io` produces exactly these
events, each once and in this order: the stats update of ctx's stats
target with the shadow descriptor; the store of `s`, verbatim, into the
original request's status; the completion signal of the original request;
the release of the shadow descriptor; the free of ctx's chunk (the call is
made with ctx's chunk pointer, null for a read) and then the free of ctx
itself; afterwards the original request's status is `s`. -/
theorem C7_end_io (w : World) (new_bio : Ptr) (hctx : (w.bios new_bio).bi_private ≠ 0) :
    (lz4e_end_io w new_bio).events = w.events ++
      [Event.lz4e_stats_update (w.reqs (w.bios new_bio).bi_private).stats_to_update new_bio,
       Event.set_bi_status (w.reqs (w.bios new_bio).bi_private).original_bio
         (w.bios new_bio).bi_status,
       Event.bio_endio (w.reqs (w.bios new_bio).bi_private).original_bio,
       Event.bio_put new_bio,
       Event.lz4e_chunk_free (w.reqs (w.bios new_bio).bi_private).chunk,
       Event.kfree (w.bios new_bio).bi_private] ∧
    ((lz4e_end_io w new_bio).bios
      (w.reqs (w.bios new_bio).bi_private).original_bio).bi_status =
        (w.bios new_bio).bi_status := by
  unfold lz4e_end_io lz4e_req_free
  simp [lz4e_stats_update, bio_endio, bio_put, lz4e_chunk_free, kfree, World.emit,
    World.set_bio, hctx]

/-! ## The theorems on the example inputs -/

/-- Witness of C3: a 4096-byte write whose compression fails returns
`BLK_STS_IOERR`. -/
theorem C3_write_rollback_witness :
    ex_env_compress_fails.PAGE_SHIFT < 32 ∧
    (lz4e_write_req_init ex_env_compress_fails (ex_world (ex_write_bio 4096)) 3 1 ex_dev).map
      Prod.fst = some BLK_STS_IOERR ∧
    ∃ st w' t, lz4e_write_req_init ex_env_compress_fails (ex_world (ex_write_bio 4096)) 3 1
        ex_dev = some (st, w') ∧
      w'.events = (ex_world (ex_write_bio 4096)).events ++ t ∧
      (st ≠ BLK_STS_OK →
        (ex_env_compress_fails.chunk_alloc_ret = 0 →
          t.filter (fun ev => is_alloc ev || is_release ev) =
            [Event.lz4e_chunk_alloc
              (uint_to_int ((ex_world (ex_write_bio 4096)).bios 1).bi_iter.bi_size) 0]) ∧
        (ex_env_compress_fails.chunk_alloc_ret ≠ 0 → ex_env_compress_fails.bio_alloc_ret = 0 →
          t.filter (fun ev => is_alloc ev || is_release ev) =
            [Event.lz4e_chunk_alloc
               (uint_to_int ((ex_world (ex_write_bio 4096)).bios 1).bi_iter.bi_size)
               ex_env_compress_fails.chunk_alloc_ret,
             Event.bio_alloc_bioset ex_dev.under_dev.bdev
               (lz4e_bio_bytes_to_pages ex_env_compress_fails.PAGE_SHIFT
                 (LZ4_COMPRESSBOUND ((ex_world (ex_write_bio 4096)).bios 1).bi_iter.bi_size))
               ((ex_world (ex_write_bio 4096)).bios 1).bi_opf GFP_NOIO ex_dev.under_dev.bset 0,
             Event.lz4e_chunk_free ex_env_compress_fails.chunk_alloc_ret]) ∧
        (ex_env_compress_fails.chunk_alloc_ret ≠ 0 → ex_env_compress_fails.bio_alloc_ret ≠ 0 →
          t.filter (fun ev => is_alloc ev || is_release ev) =
            [Event.lz4e_chunk_alloc
               (uint_to_int ((ex_world (ex_write_bio 4096)).bios 1).bi_iter.bi_size)
               ex_env_compress_fails.chunk_alloc_ret,
             Event.bio_alloc_bioset ex_dev.under_dev.bdev
               (lz4e_bio_bytes_to_pages ex_env_compress_fails.PAGE_SHIFT
                 (LZ4_COMPRESSBOUND ((ex_world (ex_write_bio 4096)).bios 1).bi_iter.bi_size))
               ((ex_world (ex_write_bio 4096)).bios 1).bi_opf GFP_NOIO ex_dev.under_dev.bset
               ex_env_compress_fails.bio_alloc_ret,
             Event.bio_put ex_env_compress_fails.bio_alloc_ret,
             Event.lz4e_chunk_free ex_env_compress_fails.chunk_alloc_ret]) ∧
        w'.reqs = (ex_world (ex_write_bio 4096)).reqs) :=
  ⟨by decide, by decide,
    C3_write_rollback ex_env_compress_fails (ex_world (ex_write_bio 4096)) 3 1 ex_dev
      (by decide)⟩

/-- Witness of C9: a 4096-byte write on which every step succeeds. -/
theorem C9_write_init_success_witness :
    (ex_env.PAGE_SHIFT < 32 ∧ ex_env.bio_alloc_ret ≠ 1 ∧
      first_failing_step ex_env ((ex_world (ex_write_bio 4096)).bios 1).bi_iter.bi_size =
        none) ∧
    ∃ w', lz4e_write_req_init ex_env (ex_world (ex_write_bio 4096)) 3 1 ex_dev =
        some (BLK_STS_OK, w') ∧
      (w'.bios ex_env.bio_alloc_ret).bi_io_vec =
        spec_frags (PAGE_SIZE ex_env.PAGE_SHIFT) (w'.chunks ex_env.chunk_alloc_ret).src_buf.data
          (to_uint (w'.chunks ex_env.chunk_alloc_ret).src_buf.buf_size) ∧
      (∃ b0, b0.bi_io_vec = [] ∧
        lz4e_add_buf_to_bio ex_env.PAGE_SHIFT b0 (w'.chunks ex_env.chunk_alloc_ret).src_buf =
          some (0, w'.bios ex_env.bio_alloc_ret)) ∧
      (w'.bios ex_env.bio_alloc_ret).bi_iter.bi_sector =
        ((ex_world (ex_write_bio 4096)).bios 1).bi_iter.bi_sector ∧
      (w'.bios ex_env.bio_alloc_ret).bi_opf = ((ex_world (ex_write_bio 4096)).bios 1).bi_opf ∧
      (w'.chunks ex_env.chunk_alloc_ret).src_buf.bio = 1 ∧
      (w'.chunks ex_env.chunk_alloc_ret).dst_buf.bio = ex_env.bio_alloc_ret ∧
      w'.reqs 3 =
        { original_bio := 1, new_bio := ex_env.bio_alloc_ret,
          stats_to_update := ex_dev.write_stats, chunk := ex_env.chunk_alloc_ret } ∧
      w'.events = (ex_world (ex_write_bio 4096)).events ++
        [Event.lz4e_chunk_alloc
           (uint_to_int ((ex_world (ex_write_bio 4096)).bios 1).bi_iter.bi_size)
           ex_env.chunk_alloc_ret,
         Event.bio_alloc_bioset ex_dev.under_dev.bdev
           (lz4e_bio_bytes_to_pages ex_env.PAGE_SHIFT
             (LZ4_COMPRESSBOUND ((ex_world (ex_write_bio 4096)).bios 1).bi_iter.bi_size))
           ((ex_world (ex_write_bio 4096)).bios 1).bi_opf GFP_NOIO ex_dev.under_dev.bset
           ex_env.bio_alloc_ret,
         Event.lz4e_chunk_compress_ext ex_env.chunk_alloc_ret 0,
         Event.lz4e_chunk_decompress ex_env.chunk_alloc_ret 0,
         Event.bio_reset ex_env.bio_alloc_ret ex_dev.under_dev.bdev
           ((ex_world (ex_write_bio 4096)).bios 1).bi_opf] :=
  ⟨⟨by decide, by decide, by decide⟩,
    C9_write_init_success ex_env (ex_world (ex_write_bio 4096)) 3 1 ex_dev (by decide)
      (by decide) (by decide)⟩

/-- Witness of C4: the 4096-byte example write. -/
theorem C4_status_classification_witness :
    ex_env.PAGE_SHIFT < 32 ∧
    ∃ st w', lz4e_req_init ex_env (ex_world (ex_write_bio 4096)) 3 1 ex_dev = some (st, w') ∧
      st ∈ [BLK_STS_OK, BLK_STS_RESOURCE, BLK_STS_IOERR, BLK_STS_NOTSUPP] ∧
      [BLK_STS_OK, BLK_STS_RESOURCE, BLK_STS_IOERR, BLK_STS_NOTSUPP].Nodup ∧
      (st = BLK_STS_NOTSUPP ↔
        bio_op ((ex_world (ex_write_bio 4096)).bios 1) ≠ REQ_OP_READ ∧
        bio_op ((ex_world (ex_write_bio 4096)).bios 1) ≠ REQ_OP_WRITE) ∧
      (bio_op ((ex_world (ex_write_bio 4096)).bios 1) ≠ REQ_OP_READ →
        bio_op ((ex_world (ex_write_bio 4096)).bios 1) ≠ REQ_OP_WRITE →
        w' = ex_world (ex_write_bio 4096)) ∧
      (bio_op ((ex_world (ex_write_bio 4096)).bios 1) = REQ_OP_READ →
        (st = BLK_STS_RESOURCE ↔ ex_env.bio_alloc_ret = 0) ∧
        (st = BLK_STS_OK ↔ ex_env.bio_alloc_ret ≠ 0)) ∧
      (bio_op ((ex_world (ex_write_bio 4096)).bios 1) = REQ_OP_WRITE →
        (st = BLK_STS_RESOURCE ↔
          first_failing_step ex_env ((ex_world (ex_write_bio 4096)).bios 1).bi_iter.bi_size =
            some Step.chunk_alloc ∨
          first_failing_step ex_env ((ex_world (ex_write_bio 4096)).bios 1).bi_iter.bi_size =
            some Step.bio_alloc) ∧
        (st = BLK_STS_IOERR ↔
          first_failing_step ex_env ((ex_world (ex_write_bio 4096)).bios 1).bi_iter.bi_size =
            some Step.map_dst ∨
          first_failing_step ex_env ((ex_world (ex_write_bio 4096)).bios 1).bi_iter.bi_size =
            some Step.compress ∨
          first_failing_step ex_env ((ex_world (ex_write_bio 4096)).bios 1).bi_iter.bi_size =
            some Step.decompress ∨
          first_failing_step ex_env ((ex_world (ex_write_bio 4096)).bios 1).bi_iter.bi_size =
            some Step.map_src) ∧
        (st = BLK_STS_OK ↔
          first_failing_step ex_env ((ex_world (ex_write_bio 4096)).bios 1).bi_iter.bi_size =
            none)) :=
  ⟨by decide,
    C4_status_classification ex_env (ex_world (ex_write_bio 4096)) 3 1 ex_dev (by decide)⟩

/-- Witness of C5: a read of three fragments; the allocation succeeds, the
status is OK, the capacity is at least 3 and the chunk is null. -/
theorem C5_read_init_witness :
    (bio_op ((ex_world ex_read_bio).bios 1) = REQ_OP_READ ∧
      ((ex_world ex_read_bio).bios 1).bi_vcnt = 3) ∧
    (∀ lzreq, ∃ st w', lz4e_req_init ex_env (ex_world ex_read_bio) lzreq 1 ex_dev =
        some (st, w') ∧
      w'.events = (ex_world ex_read_bio).events ++
        [Event.bio_alloc_bioset ex_dev.under_dev.bdev 3 REQ_OP_READ GFP_NOIO ex_env.fs_bio_set
          ex_env.bio_alloc_ret] ∧
      w'.chunks = (ex_world ex_read_bio).chunks ∧
      (ex_env.bio_alloc_ret ≠ 0 →
        st = BLK_STS_OK ∧
        3 ≤ (w'.bios ex_env.bio_alloc_ret).bi_max_vecs ∧
        (w'.bios ex_env.bio_alloc_ret).bi_opf = REQ_OP_READ ∧
        w'.reqs lzreq =
          { original_bio := 1, new_bio := ex_env.bio_alloc_ret,
            stats_to_update := ex_dev.read_stats,
            chunk := ((ex_world ex_read_bio).reqs lzreq).chunk })) ∧
    (ex_env.kzalloc_ret ≠ 0 → ex_env.bio_alloc_ret ≠ 0 →
      (lz4e_req_alloc ex_env (ex_world ex_read_bio)).1 = ex_env.kzalloc_ret ∧
      ∃ w', lz4e_req_init ex_env (lz4e_req_alloc ex_env (ex_world ex_read_bio)).2
          (lz4e_req_alloc ex_env (ex_world ex_read_bio)).1 1 ex_dev = some (BLK_STS_OK, w') ∧
        3 ≤ (w'.bios ex_env.bio_alloc_ret).bi_max_vecs ∧
        w'.reqs (lz4e_req_alloc ex_env (ex_world ex_read_bio)).1 =
          { original_bio := 1, new_bio := ex_env.bio_alloc_ret,
            stats_to_update := ex_dev.read_stats, chunk := 0 }) :=
  ⟨⟨by decide, by decide⟩,
    C5_read_init ex_env (ex_world ex_read_bio) 1 ex_dev 3 (by decide) (by decide)⟩

/-- Witness of C6 (amended): the 4096-byte example write, whose bound of
4128 bytes needs two pages. -/
theorem C6_write_descriptor_sizing_witness :
    (ex_env.bio_alloc_ret ≠ 1 ∧
      DIV_ROUND_UP (LZ4_COMPRESSBOUND ((ex_world (ex_write_bio 4096)).bios 1).bi_iter.bi_size)
        (PAGE_SIZE ex_env.PAGE_SHIFT) = 2) ∧
    (lz4e_alloc_new_bio ex_env (ex_world (ex_write_bio 4096)) 1 ex_dev.under_dev).1 =
      ex_env.bio_alloc_ret ∧
    (lz4e_alloc_new_bio ex_env (ex_world (ex_write_bio 4096)) 1 ex_dev.under_dev).2.events =
      (ex_world (ex_write_bio 4096)).events ++
      [Event.bio_alloc_bioset ex_dev.under_dev.bdev
        (min (DIV_ROUND_UP
          (LZ4_COMPRESSBOUND ((ex_world (ex_write_bio 4096)).bios 1).bi_iter.bi_size)
          (PAGE_SIZE ex_env.PAGE_SHIFT)) BIO_MAX_VECS)
        ((ex_world (ex_write_bio 4096)).bios 1).bi_opf GFP_NOIO ex_dev.under_dev.bset
        ex_env.bio_alloc_ret] ∧
    (DIV_ROUND_UP (LZ4_COMPRESSBOUND ((ex_world (ex_write_bio 4096)).bios 1).bi_iter.bi_size)
        (PAGE_SIZE ex_env.PAGE_SHIFT) ≤ BIO_MAX_VECS →
      DIV_ROUND_UP (LZ4_COMPRESSBOUND ((ex_world (ex_write_bio 4096)).bios 1).bi_iter.bi_size)
        (PAGE_SIZE ex_env.PAGE_SHIFT) ≤
      min (DIV_ROUND_UP
        (LZ4_COMPRESSBOUND ((ex_world (ex_write_bio 4096)).bios 1).bi_iter.bi_size)
        (PAGE_SIZE ex_env.PAGE_SHIFT)) BIO_MAX_VECS) ∧
    (ex_env.bio_alloc_ret ≠ 0 →
      ((lz4e_alloc_new_bio ex_env (ex_world (ex_write_bio 4096)) 1 ex_dev.under_dev).2.bios
        ex_env.bio_alloc_ret).bi_max_vecs =
        min (DIV_ROUND_UP
          (LZ4_COMPRESSBOUND ((ex_world (ex_write_bio 4096)).bios 1).bi_iter.bi_size)
          (PAGE_SIZE ex_env.PAGE_SHIFT)) BIO_MAX_VECS ∧
      ((lz4e_alloc_new_bio ex_env (ex_world (ex_write_bio 4096)) 1 ex_dev.under_dev).2.bios
        ex_env.bio_alloc_ret).bi_opf = ((ex_world (ex_write_bio 4096)).bios 1).bi_opf ∧
      ((lz4e_alloc_new_bio ex_env (ex_world (ex_write_bio 4096)) 1 ex_dev.under_dev).2.bios
        ex_env.bio_alloc_ret).bi_iter.bi_sector =
        ((ex_world (ex_write_bio 4096)).bios 1).bi_iter.bi_sector ∧
      ((lz4e_alloc_new_bio ex_env (ex_world (ex_write_bio 4096)) 1 ex_dev.under_dev).2.bios
        ex_env.bio_alloc_ret).bi_bdev = ex_dev.under_dev.bdev) :=
  ⟨⟨by decide, by decide⟩,
    C6_write_descriptor_sizing ex_env (ex_world (ex_write_bio 4096)) 1 ex_dev.under_dev
      (by decide)⟩

/-- Witness of C8 (amended): the lengths 4096 and 8192. -/
theorem C8_compressbound_monotone_witness :
    (4096 ≤ 8192 ∧ 8192 ≤ LZ4_MAX_INPUT_SIZE) ∧
    LZ4_COMPRESSBOUND 4096 ≤ LZ4_COMPRESSBOUND 8192 :=
  ⟨⟨by decide, by decide⟩, C8_compressbound_monotone 4096 8192 (by decide) (by decide)⟩

/-- Witness of C7: the completion of the example write in flight, with
downstream status 10. -/
theorem C7_end_io_witness :
    (ex_inflight_world.bios 2).bi_private ≠ 0 ∧
    (lz4e_end_io ex_inflight_world 2).events = ex_inflight_world.events ++
      [Event.lz4e_stats_update
         (ex_inflight_world.reqs (ex_inflight_world.bios 2).bi_private).stats_to_update 2,
       Event.set_bi_status
         (ex_inflight_world.reqs (ex_inflight_world.bios 2).bi_private).original_bio
         (ex_inflight_world.bios 2).bi_status,
       Event.bio_endio
         (ex_inflight_world.reqs (ex_inflight_world.bios 2).bi_private).original_bio,
       Event.bio_put 2,
       Event.lz4e_chunk_free
         (ex_inflight_world.reqs (ex_inflight_world.bios 2).bi_private).chunk,
       Event.kfree (ex_inflight_world.bios 2).bi_private] ∧
    ((lz4e_end_io ex_inflight_world 2).bios
      (ex_inflight_world.reqs (ex_inflight_world.bios 2).bi_private).original_bio).bi_status =
        (ex_inflight_world.bios 2).bi_status :=
  ⟨by decide, C7_end_io ex_inflight_world 2 (by decide)⟩

end Lz4e
